import Mathlib

/-!
Verification of the meama-simulation customer-campaign simulator.

This file gives a shallow embedding, in Lean 4, of the core of the
repository: the purchase-decision engine, campaign-impact evolution,
customer-lifecycle and attribute updaters (`src/tools/tools.py`), the
order generator (`src/tools/generate_custom_order.py`), the prize engine
(`src/tools/get_prizes.py`), and the mesa driver
(`src/mesa/customer_model.py`, `src/mesa/customer_agent.py`), together
with theorems settling the specification's claims about them.

Modelling conventions:
* Python floats are modelled as rationals (`ℚ`); `math.sqrt` (used only by
  `generate_campaign_impact_factor`) is modelled with `Real.sqrt` over `ℝ`
  in the standalone embedding of that function, and by an explicit
  `sqrtOracle : ℕ → ℚ` parameter where the driver pipeline needs a
  rational-valued stand-in (every driver-level theorem below holds for
  every oracle, in particular for the oracle agreeing with `Real.sqrt`).
* `datetime` values are modelled by a calendar `Date` structure; date
  comparison and subtraction go through `dateToDays` (the standard
  days-from-civil algorithm), and `weekday`/`day`/`month` mirror the
  corresponding Python accessors (`weekday()` with Monday = 0).
* Calls to the process-wide random source are modelled by explicit draw
  parameters: each `random.random()` site receives a named rational draw,
  `random.choice`/`random.choices` receive an index draw selecting an
  element of the sampled list, and `random.randint(a,b)` receives a draw
  mapped into `[a,b]`.
* Python exceptions (`ValueError`, `ZeroDivisionError`) are modelled with
  `Except String`.
* The product catalog JSON file is modelled as an explicit
  `List CatalogProduct` parameter.
-/

deriving instance DecidableEq for Except

namespace Meama

/-! ## Calendar dates (model of Python `datetime`, day resolution) -/

structure Date where
  year : ℤ
  month : ℤ
  day : ℤ
deriving DecidableEq, Repr

/-- Days since 1970-01-01 (proleptic Gregorian, Hinnant's days-from-civil). -/
def dateToDays (dt : Date) : ℤ :=
  let y : ℤ := if dt.month ≤ 2 then dt.year - 1 else dt.year
  let era : ℤ := Int.fdiv y 400
  let yoe : ℤ := y - era * 400
  let mp : ℤ := (dt.month + 9) % 12
  let doy : ℤ := (153 * mp + 2) / 5 + dt.day - 1
  let doe : ℤ := yoe * 365 + yoe / 4 - yoe / 100 + doy
  era * 146097 + doe - 719468

/-- Python `datetime.weekday()`: Monday = 0, ..., Sunday = 6. -/
def pyWeekday (dt : Date) : ℤ :=
  (dateToDays dt + 3) % 7

def isLeapYear (y : ℤ) : Bool :=
  (y % 4 = 0 && y % 100 ≠ 0) || y % 400 = 0

def daysInMonth (y : ℤ) (m : ℤ) : ℤ :=
  if m = 2 then (if isLeapYear y then 29 else 28)
  else if m = 4 ∨ m = 6 ∨ m = 9 ∨ m = 11 then 30
  else 31

/-- Model of `current_date + timedelta(days=1)`. -/
def nextDay (d : Date) : Date :=
  if d.day < daysInMonth d.year d.month then ⟨d.year, d.month, d.day + 1⟩
  else if d.month < 12 then ⟨d.year, d.month + 1, 1⟩
  else ⟨d.year + 1, 1, 1⟩

/-! ## Configuration (`config.py`) -/

def ENABLE_CAMPAIGN_EFFECTS : Bool := true
def CAMPAIGN_START : Date := ⟨2025, 9, 1⟩
def CAMPAIGN_END : Date := ⟨2025, 11, 30⟩
def BASE_CAMPAIGN_IMPACT_FACTOR : ℚ := 1.3
def CAMPAIGN_ENGAGEMENT_MULTIPLIER : ℚ := 0.15
def MAX_CAMPAIGN_IMPACT_FACTOR : ℚ := 2.0
def NEW_CUSTOMER_BASELINE_PROBABILITY : ℚ := 0.01
def CUSTOMER_ACQUISITION_AFTER_CAMPAIGN_END : ℚ := 0.001
def CUSTOMER_ACQUISITION_CAMPAIGN_BIAS : ℚ := 0.01
def PROPORTION_OF_NEW_CUSTOMERS : ℚ := 0.05
def MAX_CUSTOMERS_PER_DAY : ℕ := 5
def CUSTOMER_ACQUISITION_EARLY_CAMPAIGN_THRESHOLD : ℚ := 0.2
def CUSTOMER_ACQUISITION_EARLY_CAMPAIGN_BOOST : ℚ := 2.5
def CUSTOMER_ACQUISITION_LATE_CAMPAIGN_THRESHOLD : ℚ := 0.8
def CUSTOMER_ACQUISITION_LATE_CAMPAIGN_BOOST : ℚ := 2.0
def CUSTOMER_ACQUISITION_WORD_OF_MOUTH_MAX_ENGAGEMENT : ℚ := 5.0
def CUSTOMER_ACQUISITION_WORD_OF_MOUTH_MULTIPLIER : ℚ := 0.05
def CUSTOMER_ACQUISITION_SATURATION_MIN_FACTOR : ℚ := 0.5
def CUSTOMER_ACQUISITION_WEEKEND_BOOST : ℚ := 1.2
def CAMPAIGN_VALUE_MULTIPLIER_FACTOR : ℚ := 0.2
def MINIMUM_ORDER_VALUE : ℚ := 5.0
def MAXIMUM_ITEMS_PER_ORDER : ℕ := 7
def MINIMUM_PRICE_RANGE : ℚ := 20.0
def MAXIMUM_PRICE_RANGE : ℚ := 30.0
def DEFAULT_ITEMS_PER_ORDER : ℚ := 2
def DEFAULT_NEW_CUSTOMER_ORDER_VALUE : ℚ := 35.0
def SATISFACTION_LOW_THRESHOLD : ℚ := 0.3
def SATISFACTION_HIGH_THRESHOLD : ℚ := 0.8
def SATISFACTION_DECAY_RATE : ℚ := 0.02
def SATISFACTION_RECOVERY_RATE : ℚ := 0.05
def PURCHASE_INTENT_DECAY_RATE : ℚ := 0.01
def PURCHASE_INTENT_BOOST_AFTER_BROWSE : ℚ := 0.1
def IMPULSE_PURCHASE_THRESHOLD : ℚ := 0.2
def PLANNED_PURCHASE_THRESHOLD : ℚ := 0.7
def SEASONAL_BOOST_MONTHS : List ℤ := [11, 12, 1, 2]
def SEASONAL_BOOST_FACTOR : ℚ := 1.15
def SEASONAL_LOW_MONTHS : List ℤ := [6, 7, 8]
def SEASONAL_LOW_FACTOR : ℚ := 0.9
def ECONOMIC_SENTIMENT_FACTOR : ℚ := 1.0
def WEEKEND_IMPULSE_BOOST : ℚ := 1.1
def PAYDAY_BOOST_DAYS : List ℤ := [1, 15]
def PRODUCT_INTEREST_DECLINE_RATE : ℚ := 0.005
def PRODUCT_DISCOVERY_BOOST : ℚ := 0.3
def HIGH_PRICE_SENSITIVITY_THRESHOLD : ℚ := 0.7
def LOW_PRICE_SENSITIVITY_THRESHOLD : ℚ := 0.3
def PRICE_SENSITIVE_REDUCTION_FACTOR : ℚ := 0.6
def HIGH_BRAND_LOYALTY_THRESHOLD : ℚ := 0.8
def LOW_BRAND_LOYALTY_THRESHOLD : ℚ := 0.3
def BRAND_LOYALTY_BOOST_FACTOR : ℚ := 1.2

/-! ## Data model (`src/models.py`) -/

inductive CustomerLifecycleState where
  | DORMANT
  | ACTIVE
  | CHAMPION
  | AT_RISK
deriving DecidableEq, Repr

/-- One product line of an order. `product_price` is `Optional` in the
pydantic model only for legacy records; all records manipulated by the
simulation carry a price, so it is modelled as a plain rational. -/
structure OrderLine where
  product_name : String
  product_price : ℚ
  quantity : ℕ
deriving DecidableEq, Repr

/-- A customer order. `order_date` is an ISO string in the source and is
modelled as the parsed `Date`. -/
structure Order where
  order_id : ℤ
  total_spent : ℚ
  order_date : Date
  order_lines : List OrderLine
deriving DecidableEq, Repr

structure Customer where
  id : ℤ
  email : String
  created_at : Date
  historical_purchase_frequency : List Order
  historical_spending : ℚ
  average_order_value : ℚ
  total_orders : ℕ
  is_new_customer : Bool
  tickets_count : ℕ
  lifecycle_state : CustomerLifecycleState
  satisfaction_score : ℚ
  purchase_intent_level : ℚ
  price_sensitivity : ℚ
  brand_loyalty : ℚ
  last_negative_experience_days : ℤ
deriving DecidableEq, Repr

structure CampaignEngagementMetrics where
  total_orders : ℕ
  active_customers : ℕ
deriving DecidableEq, Repr

instance : Inhabited Customer :=
  ⟨⟨0, "", ⟨1970, 1, 1⟩, [], 0, 0, 0, false, 0, CustomerLifecycleState.ACTIVE,
    0.7, 0.5, 0.5, 0.5, 999⟩⟩

/-- Python `int()` applied to a float: truncation toward zero. -/
def pyInt (q : ℚ) : ℤ :=
  if q < 0 then -⌊-q⌋ else ⌊q⌋

/-- Python `round` at integer precision: round half to even. -/
def roundHalfEven (q : ℚ) : ℤ :=
  let f := ⌊q⌋
  let r := q - f
  if r < 1/2 then f
  else if 1/2 < r then f + 1
  else if 2 ∣ f then f else f + 1

/-- Python `round(x, 2)`. -/
def pyRound2 (q : ℚ) : ℚ :=
  (roundHalfEven (q * 100) : ℚ) / 100

/-- Python `a / b` (true division), raising `ZeroDivisionError` on a zero
denominator. -/
def pydiv (a b : ℚ) : Except String ℚ :=
  if b = 0 then Except.error "ZeroDivisionError: float division by zero"
  else Except.ok (a / b)

/-- Test `CAMPAIGN_START <= current <= CAMPAIGN_END` on parsed dates. -/
def in_campaign_window (d : Date) : Bool :=
  dateToDays CAMPAIGN_START ≤ dateToDays d && dateToDays d ≤ dateToDays CAMPAIGN_END

/-! ## Purchase decision engine (`tools.py`, `decide_order_placement`)

The function body is factored into one definition per commented step of
the source; `decide_order_placement` composes them in source order. The
two `random.random()` calls that always happen are the product-discovery
draw (`rDiscovery`) and the decision draw (`rFinal`); the two safeguard
draws (`rGuard`, `rSatGuard`) are only consumed by Python when the left
conjunct of their `and` holds, which the embedding mirrors by only
reading them under that condition. -/

/-- Step 2.A preamble: days since the last historical order (999 when the
history is empty). -/
def days_since_last_purchase (historical_orders : List Order) (current : Date) : ℤ :=
  match historical_orders.getLast? with
  | none => 999
  | some o => dateToDays current - dateToDays o.order_date

/-- Step 1 of `decide_order_placement`. -/
def base_daily_probability (historical_orders_count : ℕ) (historical_days : ℤ) : ℚ :=
  if historical_days ≤ 0 ∨ historical_orders_count = 0 then
    NEW_CUSTOMER_BASELINE_PROBABILITY * 0.1
  else
    let avg_days_between_purchases := max ((historical_days : ℚ) / (max historical_orders_count 1 : ℕ)) 7
    min (1.0 / avg_days_between_purchases) 0.02

/-- Step 2.A: recent purchase cooldown. -/
def cooldown_factor (days_since : ℤ) : ℚ :=
  if days_since < 3 then 0.05
  else if days_since < 7 then 0.2
  else if days_since < 14 then 0.5
  else if days_since < 30 then 0.8
  else 1.0

/-- Step 2.B: day of week factor (`weekday()`: Monday = 0). -/
def day_of_week_factor (day_of_week : ℤ) : ℚ :=
  if day_of_week = 4 then 1.2
  else if day_of_week = 5 ∨ day_of_week = 6 then 1.1 * WEEKEND_IMPULSE_BOOST
  else if day_of_week = 0 then 0.9
  else 1.0

/-- Step 2.C: monthly budget cycle with payday boosts. -/
def budget_cycle_factor (day_of_month : ℤ) : ℚ :=
  let payday_boost := if day_of_month ∈ PAYDAY_BOOST_DAYS then 1.2 else 1.0
  if day_of_month ≤ 5 then 1.3 * payday_boost
  else if day_of_month ≤ 15 then 1.0 * payday_boost
  else if day_of_month ≤ 25 then 0.8
  else 0.7

/-- Steps 3.D and 3.H: satisfaction impact, including the recent
negative-experience multiplier the source applies to the same local. -/
def satisfaction_factor (customer_data : Option Customer) : ℚ :=
  match customer_data with
  | none => 1.0
  | some cd =>
    let f := if cd.satisfaction_score < SATISFACTION_LOW_THRESHOLD then 0.2
      else if SATISFACTION_HIGH_THRESHOLD < cd.satisfaction_score then 1.3
      else 0.5 + cd.satisfaction_score
    if cd.last_negative_experience_days < 14 then f * 0.3 else f

/-- Step 3.E: purchase intent modelling. -/
def purchase_intent_factor (customer_data : Option Customer) (day_of_week : ℤ) : ℚ :=
  match customer_data with
  | none => 1.0
  | some cd =>
    if cd.purchase_intent_level < IMPULSE_PURCHASE_THRESHOLD then
      0.3 * (if day_of_week = 5 ∨ day_of_week = 6 then 1.0 else 0.5)
    else if PLANNED_PURCHASE_THRESHOLD < cd.purchase_intent_level then 1.5
    else 0.7 + cd.purchase_intent_level * 0.6

/-- Step 3.F: price sensitivity impact. -/
def price_sensitivity_factor (customer_data : Option Customer) : ℚ :=
  match customer_data with
  | none => 1.0
  | some cd =>
    if HIGH_PRICE_SENSITIVITY_THRESHOLD < cd.price_sensitivity then
      PRICE_SENSITIVE_REDUCTION_FACTOR
    else if cd.price_sensitivity < LOW_PRICE_SENSITIVITY_THRESHOLD then 1.1
    else 1.0

/-- Step 3.G: brand loyalty impact. -/
def brand_loyalty_factor (customer_data : Option Customer) : ℚ :=
  match customer_data with
  | none => 1.0
  | some cd =>
    if HIGH_BRAND_LOYALTY_THRESHOLD < cd.brand_loyalty then BRAND_LOYALTY_BOOST_FACTOR
    else if cd.brand_loyalty < LOW_BRAND_LOYALTY_THRESHOLD then 0.7
    else 1.0

/-- Step 3.I: seasonal factor from the current month. -/
def seasonal_factor (current_month : ℤ) : ℚ :=
  if current_month ∈ SEASONAL_BOOST_MONTHS then SEASONAL_BOOST_FACTOR
  else if current_month ∈ SEASONAL_LOW_MONTHS then SEASONAL_LOW_FACTOR
  else 1.0

/-- Step 3.K: product interest fluctuation; `rDiscovery` is the
`random.random()` discovery draw. -/
def product_interest_factor (rDiscovery : ℚ) (days_since : ℤ) : ℚ :=
  if rDiscovery < 0.1 then 1.0 + PRODUCT_DISCOVERY_BOOST
  else 1.0 - min ((days_since : ℚ) * PRODUCT_INTEREST_DECLINE_RATE) 0.3

/-- Step 4: the comprehensive adjusted probability (product of the base
probability and every behavioural factor). -/
def comprehensive_probability (historical_orders : List Order) (historical_days : ℤ)
    (current : Date) (customer_data : Option Customer) (rDiscovery : ℚ) : ℚ :=
  let days_since := days_since_last_purchase historical_orders current
  let wd := pyWeekday current
  base_daily_probability historical_orders.length historical_days *
    cooldown_factor days_since *
    day_of_week_factor wd *
    budget_cycle_factor current.day *
    satisfaction_factor customer_data *
    purchase_intent_factor customer_data wd *
    seasonal_factor current.month *
    price_sensitivity_factor customer_data *
    brand_loyalty_factor customer_data *
    product_interest_factor rDiscovery days_since *
    ECONOMIC_SENTIMENT_FACTOR

/-- The campaign multiplier of step 5: an aggressive dampened factor
above 1.0, the raw factor otherwise. -/
def campaign_multiplier (campaign_impact_factor : ℚ) : ℚ :=
  if 1.0 < campaign_impact_factor then campaign_impact_factor * 0.8
  else campaign_impact_factor

/-- The lifecycle-based reactivation boost of step 5. -/
def reactivation_boost (customer_data : Option Customer) : ℚ :=
  match customer_data with
  | some cd =>
    if cd.lifecycle_state = CustomerLifecycleState.DORMANT then 1.8
    else if cd.lifecycle_state = CustomerLifecycleState.AT_RISK then 1.4
    else 1.0
  | none => 1.0

/-- Step 5: campaign overlay on the comprehensive probability (first cap
at 0.08 inside the campaign window included). -/
def campaign_overlay (enable : Bool) (campaign_impact_factor : ℚ)
    (customer_data : Option Customer) (current : Date) (comp : ℚ) : ℚ :=
  if enable && in_campaign_window current then
    let days_left := dateToDays CAMPAIGN_END - dateToDays current
    let campaign_urgency_boost := if days_left ≤ 7 then 1.4 else if days_left ≤ 30 then 1.2 else 1.0
    let promotional_boost := if current.day = 1 ∨ current.day = 15 then 1.3 else 1.0
    min (comp * campaign_multiplier campaign_impact_factor * campaign_urgency_boost *
      reactivation_boost customer_data * promotional_boost) 0.08
  else comp

/-- The final probability after the second, campaign-status-based cap. -/
def final_probability (enable : Bool) (campaign_impact_factor : ℚ)
    (historical_orders : List Order) (historical_days : ℤ) (current : Date)
    (customer_data : Option Customer) (rDiscovery : ℚ) : ℚ :=
  let comp := comprehensive_probability historical_orders historical_days current
    customer_data rDiscovery
  let fp := campaign_overlay enable campaign_impact_factor customer_data current comp
  if enable && in_campaign_window current then min fp 0.08 else min fp 0.02

/-- Model of `decide_order_placement` (`tools.py`). `enable` stands for
the global `ENABLE_CAMPAIGN_EFFECTS`; `rDiscovery`, `rFinal`, `rGuard`
and `rSatGuard` are the four `random.random()` sites in source order. -/
def decide_order_placement (enable : Bool) (campaign_impact_factor : ℚ)
    (historical_orders : List Order) (historical_days : ℤ) (current : Date)
    (customer_data : Option Customer) (rDiscovery rFinal rGuard rSatGuard : ℚ) : Bool :=
  let days_since := days_since_last_purchase historical_orders current
  let fp := final_probability enable campaign_impact_factor historical_orders
    historical_days current customer_data rDiscovery
  if days_since < 2 ∧ 0.95 < rGuard then false
  else if (customer_data.any fun cd => cd.satisfaction_score < 0.2) ∧ 0.1 < rSatGuard then
    false
  else decide (rFinal ≤ fp)

/-! ## Campaign impact evolution (`tools.py`,
`generate_campaign_impact_factor`) -/

/-- Model of `generate_campaign_impact_factor`. `math.sqrt` is modelled
by `Real.sqrt`, so the function lives over `ℝ`. -/
noncomputable def generate_campaign_impact_factor (enable : Bool)
    (current_customer_impact_factor : ℝ) (campaign_orders_count : ℕ)
    (current_date : Date) : ℝ :=
  if enable = false then 1.0
  else if dateToDays current_date < dateToDays CAMPAIGN_START ∨
      dateToDays CAMPAIGN_END < dateToDays current_date then 1.0
  else
    let engagement_boost : ℝ :=
      if 0 < campaign_orders_count then
        Real.sqrt (campaign_orders_count : ℝ) * (CAMPAIGN_ENGAGEMENT_MULTIPLIER : ℚ)
      else 0
    let dynamic_factor := current_customer_impact_factor + engagement_boost
    let dynamic_factor :=
      if 8 < campaign_orders_count then
        dynamic_factor * max (1.0 - ((campaign_orders_count : ℝ) - 8) * 0.02) 0.8
      else dynamic_factor
    max (min dynamic_factor (MAX_CAMPAIGN_IMPACT_FACTOR : ℚ)) 1.0

/-- Rational-valued rendition of `generate_campaign_impact_factor` used
inside the driver embedding: identical to the real-valued model except
that `math.sqrt` is supplied as an explicit `sqrtOracle`. Driver-level
theorems are proved for every oracle, hence in particular for the oracle
that agrees with the real square root. -/
def generate_campaign_impact_factor_q (sqrtOracle : ℕ → ℚ) (enable : Bool)
    (current_customer_impact_factor : ℚ) (campaign_orders_count : ℕ)
    (current_date : Date) : ℚ :=
  if enable = false then 1.0
  else if dateToDays current_date < dateToDays CAMPAIGN_START ∨
      dateToDays CAMPAIGN_END < dateToDays current_date then 1.0
  else
    let engagement_boost : ℚ :=
      if 0 < campaign_orders_count then
        sqrtOracle campaign_orders_count * CAMPAIGN_ENGAGEMENT_MULTIPLIER
      else 0
    let dynamic_factor := current_customer_impact_factor + engagement_boost
    let dynamic_factor :=
      if 8 < campaign_orders_count then
        dynamic_factor * max (1.0 - ((campaign_orders_count : ℚ) - 8) * 0.02) 0.8
      else dynamic_factor
    max (min dynamic_factor MAX_CAMPAIGN_IMPACT_FACTOR) 1.0

/-! ## Customer attribute updaters (`tools.py`) -/

/-- The natural-decay step of `update_customer_satisfaction`. -/
def satisfaction_after_decay (c : Customer) (days_passed : ℤ) : ℚ :=
  max 0.0 (c.satisfaction_score - (days_passed : ℚ) * SATISFACTION_DECAY_RATE)

/-- The negative-experience recovery step of
`update_customer_satisfaction`: the new satisfaction and the advanced
days-since-negative-experience counter. -/
def satisfaction_recovery (s : ℚ) (lastNeg days_passed : ℤ) : ℚ × ℤ :=
  if lastNeg < 999 then
    if 30 < lastNeg + days_passed then
      (min 1.0 (s + ((lastNeg + days_passed : ℤ) - 30) * SATISFACTION_RECOVERY_RATE),
        lastNeg + days_passed)
    else (s, lastNeg + days_passed)
  else (s, lastNeg)

/-- The full satisfaction pipeline of `update_customer_satisfaction`:
decay, recovery, purchase boost, negative-experience penalty; returns
the new score and the new days-since-negative-experience counter. -/
def satisfaction_after_update (c : Customer) (days_passed : ℤ)
    (had_purchase had_negative_experience : Bool) : ℚ × ℤ :=
  let recovered := satisfaction_recovery (satisfaction_after_decay c days_passed)
    c.last_negative_experience_days days_passed
  let s := if had_purchase then min 1.0 (recovered.1 + 0.1) else recovered.1
  if had_negative_experience then (max 0.0 (s - 0.3), 0) else (s, recovered.2)

/-- Model of `update_customer_satisfaction`. The pydantic `Customer`
always has a `satisfaction_score` attribute, so the `hasattr` default
branch of the source is never taken. -/
def update_customer_satisfaction (c : Customer) (days_passed : ℤ)
    (had_purchase had_negative_experience : Bool) : Customer :=
  { c with
    satisfaction_score :=
      (satisfaction_after_update c days_passed had_purchase had_negative_experience).1
    last_negative_experience_days :=
      (satisfaction_after_update c days_passed had_purchase had_negative_experience).2 }

/-- Model of `update_purchase_intent`; `rBrowse` is the 15%-chance
browsing draw. -/
def update_purchase_intent (c : Customer) (days_passed : ℤ)
    (simulated_browsing : Bool) (rBrowse : ℚ) : Customer :=
  let i := max 0.0 (c.purchase_intent_level - (days_passed : ℚ) * PURCHASE_INTENT_DECAY_RATE)
  if simulated_browsing || rBrowse < 0.15 then
    { c with purchase_intent_level := min 1.0 (i + PURCHASE_INTENT_BOOST_AFTER_BROWSE) }
  else
    { c with purchase_intent_level := i }

/-- Days since the last order as computed by
`update_customer_lifecycle_state` (last list element; only meaningful for
a nonempty history). -/
def lifecycle_days_since_last_order (c : Customer) (current_date : Date) : ℤ :=
  match c.historical_purchase_frequency.getLast? with
  | none => 0
  | some o => dateToDays current_date - dateToDays o.order_date

/-- Monthly order frequency as computed by
`update_customer_lifecycle_state`. -/
def lifecycle_order_frequency (c : Customer) (current_date : Date) : ℚ :=
  (c.historical_purchase_frequency.length : ℚ) /
    max ((dateToDays current_date - dateToDays c.created_at : ℤ) / (30 : ℚ)) 1

/-- Average order value as computed by `update_customer_lifecycle_state`
(only used on a nonempty history). -/
def lifecycle_avg_order_value (c : Customer) : ℚ :=
  ((c.historical_purchase_frequency.map (fun o => o.total_spent)).sum) /
    (c.historical_purchase_frequency.length : ℚ)

/-- Model of `update_customer_lifecycle_state` (`tools.py`): the
shared-tools lifecycle classifier (the source binds the three metrics to
locals before branching; they are pure, so the embedding inlines
them). -/
def update_customer_lifecycle_state (c : Customer) (current_date : Date) : Customer :=
  if c.historical_purchase_frequency = [] then
    { c with lifecycle_state := CustomerLifecycleState.ACTIVE }
  else if 180 < lifecycle_days_since_last_order c current_date then
    { c with lifecycle_state := CustomerLifecycleState.DORMANT }
  else if 90 < lifecycle_days_since_last_order c current_date ∧
      lifecycle_order_frequency c current_date < 0.5 then
    { c with lifecycle_state := CustomerLifecycleState.AT_RISK }
  else if 50 < lifecycle_avg_order_value c ∧ 1.0 < lifecycle_order_frequency c current_date then
    { c with lifecycle_state := CustomerLifecycleState.CHAMPION }
  else
    { c with lifecycle_state := CustomerLifecycleState.ACTIVE }

/-- Model of `simulate_random_customer_experiences`; the four probability
draws and the two `random.uniform` deltas are explicit parameters (the
`current_date` argument is unused by the source as well). -/
def simulate_random_customer_experiences (c : Customer) (_current_date : Date)
    (rNeg rPos rLoy loyaltyDelta rSens sensitivityDelta : ℚ) : Customer :=
  let c := if rNeg < 0.02 then update_customer_satisfaction c 0 false true else c
  let c := if rPos < 0.05 then
      { c with satisfaction_score := min 1.0 (c.satisfaction_score + 0.05) } else c
  let c := if rLoy < 0.01 then
      { c with brand_loyalty := max 0.0 (min 1.0 (c.brand_loyalty + loyaltyDelta)) } else c
  if rSens < 0.005 then
    { c with price_sensitivity := max 0.0 (min 1.0 (c.price_sensitivity + sensitivityDelta)) }
  else c

/-! ## Prize engine (`get_prizes.py`) -/

structure Prize where
  prize : String
  campaign_impact_increase : ℚ
deriving DecidableEq, Repr

/-- Model of `get_daily_prize`: fixed-date grand prizes first, then the
Monday-to-Friday ladder (`strftime` day names are rendered as
`weekday()` numbers). -/
def get_daily_prize (current_date : Date) : Option Prize :=
  if current_date.month = 10 ∧ current_date.day = 15 then some ⟨"BMW M4", 0.2⟩
  else if current_date.month = 11 ∧ current_date.day = 30 then some ⟨"CyberTruck", 0.0⟩
  else
    let wd := pyWeekday current_date
    if wd = 0 then some ⟨"1000 GEL", 0.5⟩
    else if wd = 1 then some ⟨"1500 GEL", 0.5⟩
    else if wd = 2 then some ⟨"2000 GEL", 0.6⟩
    else if wd = 3 then some ⟨"3000 GEL", 0.7⟩
    else if wd = 4 then some ⟨"3500 GEL", 0.7⟩
    else none

/-- The eligible set of `get_prize_winner`: customers holding at least
one ticket. -/
def eligible_customers (customers : List Customer) : List Customer :=
  customers.filter (fun c => 0 < c.tickets_count)

/-- The weighted selection pool built by `get_prize_winner`: each
customer of the list repeated once per ticket. -/
def weighted_customers (eligible : List Customer) : List Customer :=
  eligible.flatMap (fun c => List.replicate c.tickets_count c)

/-- Model of `get_prize_winner`. `random.choice` draws uniformly from the
weighted pool; it is modelled by an arbitrary index draw `rIdx` reduced
modulo the pool size, so every possible outcome of the uniform draw is
covered by some `rIdx`. -/
def get_prize_winner (customers : List Customer) (rIdx : ℕ) : Except String Customer :=
  if eligible_customers customers = [] then
    Except.error "No customers with tickets available for prize selection"
  else
    Except.ok ((weighted_customers (eligible_customers customers)).getD
      (rIdx % (weighted_customers (eligible_customers customers)).length) default)

/-! ## Order generator (`generate_custom_order.py`)

The product catalog JSON file (`data/analysis/product_catalog.json`) is
modelled as an explicit `List CatalogProduct` argument threaded through
the helpers that read it. -/

structure CatalogProduct where
  name : String
  avg_price : ℚ
  frequency : ℕ
  preference_score : ℚ
  avg_quantity : ℚ
  category : String
deriving DecidableEq, Repr

instance : Inhabited CatalogProduct := ⟨⟨"", 0, 0, 0, 0, ""⟩⟩

structure PreferredProduct where
  name : String
  frequency : ℕ
  preference_score : ℚ
  avg_quantity : ℚ
deriving DecidableEq, Repr

instance : Inhabited PreferredProduct := ⟨⟨"", 0, 0, 0⟩⟩

/-- The preference data returned by `_analyze_product_preferences` (the
`category_preferences` entry is dead downstream of the analyzer and is
omitted). -/
structure ProductPreferences where
  preferred_products : List PreferredProduct
  avg_price_range : ℚ × ℚ
  typical_items_per_order : ℚ
deriving DecidableEq, Repr

/-- One `collections.Counter` update (insertion order preserved, as in
CPython). -/
def counterAdd (l : List (String × ℕ)) (k : String) (n : ℕ) : List (String × ℕ) :=
  if l.any (fun p => p.1 = k) then
    l.map (fun p => if p.1 = k then (p.1, p.2 + n) else p)
  else l ++ [(k, n)]

/-- Model of `_get_default_product_preferences` on a loaded catalog. An
empty catalog yields exactly the source's fallback preference record, so
the missing-file fallback coincides with the empty-catalog case. -/
def _get_default_product_preferences (catalog : List CatalogProduct) : ProductPreferences :=
  let default_products := catalog.map (fun p =>
    ({ name := p.name, frequency := p.frequency, preference_score := p.preference_score,
       avg_quantity := p.avg_quantity } : PreferredProduct))
  let prices := (catalog.filter (fun p => 0 < p.avg_price)).map (fun p => p.avg_price)
  let avg_price_range :=
    if prices = [] then (MINIMUM_PRICE_RANGE, MAXIMUM_PRICE_RANGE)
    else (prices.foldl min (prices.headD 0), prices.foldl max (prices.headD 0))
  let total_frequency := (catalog.map (fun p => p.frequency)).sum
  let typical := if catalog = [] then DEFAULT_ITEMS_PER_ORDER
    else (total_frequency : ℚ) / (catalog.length : ℚ)
  { preferred_products := default_products, avg_price_range := avg_price_range,
    typical_items_per_order := typical }

/-- Model of `_analyze_product_preferences`. Lines with an empty or
`Unknown Product` name are skipped as in the source (`strip()` is not
modelled; names are taken as given); `Counter.most_common` is a stable
sort by descending count. -/
def _analyze_product_preferences (catalog : List CatalogProduct)
    (historical_orders : List Order) : ProductPreferences :=
  if historical_orders = [] then _get_default_product_preferences catalog
  else
    let lines := (historical_orders.flatMap (fun o => o.order_lines)).filter
      (fun l => l.product_name ≠ "" ∧ l.product_name ≠ "Unknown Product")
    let product_quantities := lines.foldl (fun acc l => counterAdd acc l.product_name l.quantity) []
    let product_frequency := lines.foldl (fun acc l => counterAdd acc l.product_name 1) []
    let price_ranges := lines.map (fun l => l.product_price)
    let total_frequency := (product_frequency.map (fun p => p.2)).sum
    let ranked := product_frequency.mergeSort (fun a b => b.2 ≤ a.2)
    let keep := max 3 (pyInt ((product_frequency.length : ℚ) * 0.7)).toNat
    let preferred_products := (ranked.take keep).map (fun p =>
      ({ name := p.1, frequency := p.2, preference_score := (p.2 : ℚ) / (total_frequency : ℚ),
         avg_quantity := (((product_quantities.lookup p.1).getD 0 : ℕ) : ℚ) / (p.2 : ℚ) } : PreferredProduct))
    { preferred_products := preferred_products,
      avg_price_range :=
        if price_ranges = [] then (MINIMUM_PRICE_RANGE, MAXIMUM_PRICE_RANGE)
        else (price_ranges.foldl min (price_ranges.headD 0),
          price_ranges.foldl max (price_ranges.headD 0)),
      typical_items_per_order := (lines.length : ℚ) / (historical_orders.length : ℚ) }

/-- Model of `_calculate_target_order_value`; `rValueJitter` is the
`random.uniform(0.8, 1.2)` draw (the campaign value multiplier is
commented out in the source, leaving a constant `1.0`). -/
def _calculate_target_order_value (customer : Customer) (_current_date : Date)
    (rValueJitter : ℚ) : ℚ :=
  let base_value :=
    if customer.average_order_value ≤ 0 ∨ customer.historical_purchase_frequency = [] then
      DEFAULT_NEW_CUSTOMER_ORDER_VALUE
    else customer.average_order_value
  let value_multiplier := 1.0
  let target_value := base_value * value_multiplier * rValueJitter
  max target_value MINIMUM_ORDER_VALUE

/-- Model of `_get_product_price`: price lookup by name in the catalog,
an error when the product (or the catalog file) is missing. -/
def _get_product_price (catalog : List CatalogProduct) (product_name : String)
    (_current_date : Date) : Except String ℚ :=
  match catalog.find? (fun p => p.name = product_name) with
  | some p => Except.ok (pyRound2 p.avg_price)
  | none => Except.error ("Product " ++ product_name ++ " not found in catalog")

/-- Model of `_get_random_product`. The frequency-weighted
`random.choices` over the valid products is modelled by an arbitrary
index draw reduced modulo the list length (covering every element of the
support of the weighted draw). -/
def _get_random_product (catalog : List CatalogProduct) (selIdx : ℕ)
    (current_date : Date) : Except String (String × ℚ) :=
  let valid := catalog.filter (fun p => 0 < p.frequency ∧ 0 < p.avg_price)
  if valid = [] then Except.error "No valid products found in catalog"
  else
    let selected := valid.getD (selIdx % valid.length) default
    match _get_product_price catalog selected.name current_date with
    | Except.ok price => Except.ok (selected.name, price)
    | Except.error e => Except.error e

/-- The random draws consumed by one item of `_generate_order_lines`:
the preferred-vs-catalog `random.random()` draw, the index draw of the
weighted `random.choices` selection, and the `random.randint(0, 1)`
quantity jitter (taken modulo 2). -/
structure ItemDraw where
  rChoosePreferred : ℚ
  selIdx : ℕ
  qtyJitter : ℕ

/-- The random draws consumed by one `generate_customer_order` call. -/
structure OrderGenDraws where
  rValueJitter : ℚ
  normJitter : ℚ
  itemDraws : ℕ → ItemDraw
  orderIdSuffix : ℤ

/-- The product choice of one item of `_generate_order_lines`: either a
preference-weighted pick from the preferred products (70% of draws, when
any exist) with its price resolved from the catalog and its base
quantity, or a frequency-weighted pick from the catalog with base
quantity 1. -/
def order_line_choice (catalog : List CatalogProduct) (preferred : List PreferredProduct)
    (dw : ItemDraw) (current_date : Date) : Except String (String × ℚ × ℕ) :=
  if preferred ≠ [] ∧ dw.rChoosePreferred < 0.7 then
    match _get_product_price catalog
      (preferred.getD (dw.selIdx % preferred.length) default).name current_date with
    | Except.ok price =>
      Except.ok ((preferred.getD (dw.selIdx % preferred.length) default).name, price,
        max 1 (pyInt (preferred.getD (dw.selIdx % preferred.length) default).avg_quantity).toNat)
    | Except.error e => Except.error e
  else
    match _get_random_product catalog dw.selIdx current_date with
    | Except.ok np => Except.ok (np.1, np.2, 1)
    | Except.error e => Except.error e

/-- The quantity rule of one item of `_generate_order_lines`: capped by
the affordable quantity and, on every non-final item, by 60% of the
remaining budget. -/
def order_line_quantity (price : ℚ) (base_quantity qtyJitter : ℕ)
    (remaining_value : ℚ) (is_last : Bool) : ℕ :=
  let max_affordable_qty :=
    if 0 < price then max 1 (pyInt (remaining_value / price)).toNat else 1
  let quantity := min (base_quantity + qtyJitter % 2) max_affordable_qty
  if is_last = false then
    let max_qty_by_budget := if 0 < price then pyInt (remaining_value * 0.6 / price) else 1
    min quantity (max 1 max_qty_by_budget).toNat
  else quantity

/-- The item loop of `_generate_order_lines`, recursing on the number of
items still to generate (`fuel`); the item index is `num_items - fuel`
and the current item is the final one exactly when `fuel = 1`. -/
def _generate_order_lines_go (catalog : List CatalogProduct)
    (preferred : List PreferredProduct) (itemDraws : ℕ → ItemDraw) (num_items : ℕ)
    (current_date : Date) : ℕ → ℚ → Except String (List OrderLine)
  | 0, _ => Except.ok []
  | fuel + 1, remaining_value =>
    match order_line_choice catalog preferred (itemDraws (num_items - (fuel + 1)))
      current_date with
    | Except.error e => Except.error e
    | Except.ok chosen =>
      let quantity := order_line_quantity chosen.2.1 chosen.2.2
        (itemDraws (num_items - (fuel + 1))).qtyJitter remaining_value (fuel = 0)
      let line : OrderLine := ⟨chosen.1, chosen.2.1, quantity⟩
      if remaining_value - chosen.2.1 * (quantity : ℚ) ≤ MINIMUM_ORDER_VALUE then
        Except.ok [line]
      else
        match _generate_order_lines_go catalog preferred itemDraws num_items current_date
          fuel (remaining_value - chosen.2.1 * (quantity : ℚ)) with
        | Except.error e => Except.error e
        | Except.ok rest => Except.ok (line :: rest)

/-- Model of `_generate_order_lines`. -/
def _generate_order_lines (catalog : List CatalogProduct) (prefs : ProductPreferences)
    (target_value : ℚ) (current_date : Date) (normJitter : ℚ)
    (itemDraws : ℕ → ItemDraw) : Except String (List OrderLine) :=
  let target_items := max 1 (pyInt prefs.typical_items_per_order).toNat
  let num_items := max 1 (pyInt ((target_items : ℚ) + normJitter)).toNat
  let num_items := min num_items MAXIMUM_ITEMS_PER_ORDER
  _generate_order_lines_go catalog prefs.preferred_products itemDraws num_items
    current_date num_items target_value

/-- Model of `generate_customer_order`. The order id is the millisecond
timestamp of the (midnight) current date plus the
`random.randint(1000, 9999)` suffix draw. -/
def generate_customer_order (catalog : List CatalogProduct) (customer_data : Customer)
    (current_date : Date) (draws : OrderGenDraws) : Except String Order :=
  let product_preferences :=
    _analyze_product_preferences catalog customer_data.historical_purchase_frequency
  let target_order_value := _calculate_target_order_value customer_data current_date
    draws.rValueJitter
  match _generate_order_lines catalog product_preferences target_order_value current_date
    draws.normJitter draws.itemDraws with
  | Except.error e => Except.error e
  | Except.ok order_lines =>
    let actual_total := (order_lines.map (fun l => l.product_price * (l.quantity : ℚ))).sum
    let order_id := dateToDays current_date * 86400000 + draws.orderIdSuffix
    let generated_order : Order :=
      { order_id := order_id
        total_spent := pyRound2 actual_total
        order_date := current_date
        order_lines := order_lines }
    Except.ok generated_order

/-! ## Acquisition engine (`tools.py`, `decide_new_customer_acquisition`) -/

/-- The random draws consumed by one `decide_new_customer_acquisition`
call: `rAcquire` is the single Bernoulli draw of the two baseline
branches, `rTrials` the `MAX_CUSTOMERS_PER_DAY` in-campaign Bernoulli
trials, `rBonusChance` the 30% weekend bonus draw, `bonusCount` the
`random.randint(1, 3)` bonus size (taken modulo 3, plus 1), and
`orderDraws` the per-acquired-customer order generation draws. -/
structure AcqDraws where
  rAcquire : ℚ
  rTrials : ℕ → ℚ
  rBonusChance : ℚ
  bonusCount : ℕ
  orderDraws : ℕ → OrderGenDraws

/-- A freshly acquired `Customer` record; the fields the source does not
pass explicitly take their pydantic defaults. -/
def mkAcquiredCustomer (id : ℤ) (created : Date) (tickets : ℕ) : Customer :=
  { id := id
    email := "newcustomer" ++ toString id ++ "@example.com"
    created_at := created
    historical_purchase_frequency := []
    historical_spending := 0
    average_order_value := 0
    total_orders := 0
    is_new_customer := true
    tickets_count := tickets
    lifecycle_state := CustomerLifecycleState.ACTIVE
    satisfaction_score := 0.7
    purchase_intent_level := 0.5
    price_sensitivity := 0.5
    brand_loyalty := 0.5
    last_negative_experience_days := 999 }

/-- The market saturation expression of `decide_new_customer_acquisition`
(line 404 of `tools.py`):
`max(CUSTOMER_ACQUISITION_SATURATION_MIN_FACTOR,
1.0 - (existing_customers_count / (existing_customers_count / 2)))`.
The inner Python true division has denominator `existing / 2`, which is
zero exactly when the count is zero, in which case Python raises
`ZeroDivisionError`. -/
def market_saturation_factor (existing_customers_count : ℕ) : Except String ℚ :=
  match pydiv (existing_customers_count : ℚ) ((existing_customers_count : ℚ) / 2) with
  | Except.error e => Except.error e
  | Except.ok r => Except.ok (max CUSTOMER_ACQUISITION_SATURATION_MIN_FACTOR (1.0 - r))

/-- The customer-generation loop at the end of
`decide_new_customer_acquisition`: the i-th acquired customer gets id
`existing_customers_count + i + 1`, one ticket and one immediately
generated order appended to its (empty) history. -/
def acquire_customers_go (catalog : List CatalogProduct) (existing_customers_count : ℕ)
    (current : Date) (orderDraws : ℕ → OrderGenDraws) :
    ℕ → ℕ → Except String (List Customer)
  | _, 0 => Except.ok []
  | i, n + 1 =>
    let c := mkAcquiredCustomer ((existing_customers_count : ℤ) + i + 1) current 1
    match generate_customer_order catalog c current (orderDraws i) with
    | Except.error e => Except.error e
    | Except.ok o =>
      match acquire_customers_go catalog existing_customers_count current orderDraws
        (i + 1) n with
      | Except.error e => Except.error e
      | Except.ok rest =>
        Except.ok ({ c with historical_purchase_frequency := [o] } :: rest)

/-- Model of `decide_new_customer_acquisition`. -/
def decide_new_customer_acquisition (enable : Bool) (catalog : List CatalogProduct)
    (current_date : Date) (existing_customers_count : ℕ)
    (campaign_engagement_metrics : Option CampaignEngagementMetrics)
    (draws : AcqDraws) : Except String (List Customer) :=
  if enable = false then
    if draws.rAcquire ≤ 0.001 then
      Except.ok [mkAcquiredCustomer ((existing_customers_count : ℤ) + 1) current_date 0]
    else Except.ok []
  else if dateToDays current_date < dateToDays CAMPAIGN_START ∨
      dateToDays CAMPAIGN_END < dateToDays current_date then
    if draws.rAcquire ≤ CUSTOMER_ACQUISITION_AFTER_CAMPAIGN_END then
      Except.ok [mkAcquiredCustomer ((existing_customers_count : ℤ) + 1) current_date 0]
    else Except.ok []
  else
    let campaign_duration := dateToDays CAMPAIGN_END - dateToDays CAMPAIGN_START
    let days_into_campaign := dateToDays current_date - dateToDays CAMPAIGN_START
    let campaign_progress := min ((days_into_campaign : ℚ) / (campaign_duration : ℚ)) 1.0
    let base_campaign_rate := CUSTOMER_ACQUISITION_CAMPAIGN_BIAS
    let timing_factor :=
      if campaign_progress < CUSTOMER_ACQUISITION_EARLY_CAMPAIGN_THRESHOLD then
        CUSTOMER_ACQUISITION_EARLY_CAMPAIGN_BOOST
      else if CUSTOMER_ACQUISITION_LATE_CAMPAIGN_THRESHOLD < campaign_progress then
        CUSTOMER_ACQUISITION_LATE_CAMPAIGN_BOOST
      else 1.0
    let word_of_mouth_factor : ℚ :=
      match campaign_engagement_metrics with
      | none => 1.0
      | some m =>
        if 0 < m.total_orders ∧ 0 < m.active_customers then
          1.0 + min ((m.total_orders : ℚ) / (m.active_customers : ℚ))
            CUSTOMER_ACQUISITION_WORD_OF_MOUTH_MAX_ENGAGEMENT *
            CUSTOMER_ACQUISITION_WORD_OF_MOUTH_MULTIPLIER
        else 1.0
    match market_saturation_factor existing_customers_count with
    | Except.error e => Except.error e
    | Except.ok saturation_factor =>
      let day_factor :=
        if 5 ≤ pyWeekday current_date then CUSTOMER_ACQUISITION_WEEKEND_BOOST else 1.0
      let acquisition_probability := base_campaign_rate * timing_factor *
        word_of_mouth_factor * saturation_factor * day_factor
      let acquisition_probability := min acquisition_probability PROPORTION_OF_NEW_CUSTOMERS
      let customers_to_acquire := (List.range MAX_CUSTOMERS_PER_DAY).countP
        (fun k => draws.rTrials k ≤ acquisition_probability)
      let customers_to_acquire :=
        if 1.0 < day_factor ∧ draws.rBonusChance < 0.3 then
          customers_to_acquire + (1 + draws.bonusCount % 3)
        else customers_to_acquire
      let customers_to_acquire := min customers_to_acquire MAX_CUSTOMERS_PER_DAY
      acquire_customers_go catalog existing_customers_count current_date draws.orderDraws
        0 customers_to_acquire

/-! ## Customer agent (`customer_agent.py`) -/

structure CustomerAgentState where
  customer_id : ℤ
  email : String
  historical_spending : ℚ
  avg_order_value : ℚ
  total_orders : ℕ
  historical_orders : List Order
  is_new_customer : Bool
  tickets_count : ℕ
  lifecycle_state : CustomerLifecycleState
  campaign_impact_factor : ℚ
  hasWonImpactFactor : ℚ
  prize_wins : List String
  new_order_count : ℕ
  is_churned : Bool
  days_since_last_order : ℤ
  satisfaction_score : ℚ
  purchase_intent_level : ℚ
  price_sensitivity : ℚ
  brand_loyalty : ℚ
  last_negative_experience_days : ℤ
deriving DecidableEq, Repr

/-- Model of `CustomerAgent.__init__`. The pydantic `Customer` always
carries the behavioural attributes, so the `getattr` random defaults
never fire, and `lifecycle_state or ACTIVE` is the stored state (never
`None` in the model). -/
def CustomerAgent_init (customer_data : Customer) : CustomerAgentState :=
  { customer_id := customer_data.id
    email := customer_data.email
    historical_spending := customer_data.historical_spending
    avg_order_value := customer_data.average_order_value
    total_orders := customer_data.total_orders
    historical_orders := customer_data.historical_purchase_frequency
    is_new_customer := customer_data.is_new_customer
    tickets_count := customer_data.tickets_count
    lifecycle_state := customer_data.lifecycle_state
    campaign_impact_factor := BASE_CAMPAIGN_IMPACT_FACTOR
    hasWonImpactFactor := 1.0
    prize_wins := []
    new_order_count := 0
    is_churned := false
    days_since_last_order := 0
    satisfaction_score := customer_data.satisfaction_score
    purchase_intent_level := customer_data.purchase_intent_level
    price_sensitivity := customer_data.price_sensitivity
    brand_loyalty := customer_data.brand_loyalty
    last_negative_experience_days := customer_data.last_negative_experience_days }

/-- Days since the most recent order, as computed by the agent-level
`update_lifecycle_state` (`max` over all order dates; only used on a
nonempty history). -/
def agent_days_since_last_order (a : CustomerAgentState) (current_date : Date) : ℤ :=
  dateToDays current_date -
    ((a.historical_orders.map (fun o => dateToDays o.order_date)).max?.getD 0)

/-- The orders of the last six months (180 days), as collected by the
agent-level `update_lifecycle_state`. -/
def agent_recent_orders (a : CustomerAgentState) (current_date : Date) : List Order :=
  a.historical_orders.filter
    (fun o => dateToDays current_date - 180 ≤ dateToDays o.order_date)

/-- The orders of the earlier six-month window (between 360 and 180 days
ago), as collected by the agent-level `update_lifecycle_state`. -/
def agent_older_orders (a : CustomerAgentState) (current_date : Date) : List Order :=
  a.historical_orders.filter
    (fun o => dateToDays current_date - 360 ≤ dateToDays o.order_date ∧
      dateToDays o.order_date < dateToDays current_date - 180)

/-- Model of the agent-level `CustomerAgent.update_lifecycle_state`
(`customer_agent.py`, the second lifecycle-classification call site).
On a nonempty history the source first stores
`self.days_since_last_order` and then assigns the state; each branch of
the embedding performs both writes. -/
def CustomerAgentState.update_lifecycle_state (a : CustomerAgentState)
    (current_date : Date) : CustomerAgentState :=
  if a.historical_orders = [] then
    { a with lifecycle_state :=
        if a.is_new_customer then CustomerLifecycleState.ACTIVE
        else CustomerLifecycleState.DORMANT }
  else if 180 < agent_days_since_last_order a current_date then
    { a with
      days_since_last_order := agent_days_since_last_order a current_date
      lifecycle_state := CustomerLifecycleState.DORMANT }
  else if 10 ≤ (agent_recent_orders a current_date).length ∧ (50 : ℚ) < a.avg_order_value then
    { a with
      days_since_last_order := agent_days_since_last_order a current_date
      lifecycle_state := CustomerLifecycleState.CHAMPION }
  else if 3 ≤ (agent_recent_orders a current_date).length then
    if ((agent_recent_orders a current_date).length : ℚ) * 1.5 <
        ((agent_older_orders a current_date).length : ℚ) then
      { a with
        days_since_last_order := agent_days_since_last_order a current_date
        lifecycle_state := CustomerLifecycleState.AT_RISK }
    else
      { a with
        days_since_last_order := agent_days_since_last_order a current_date
        lifecycle_state := CustomerLifecycleState.ACTIVE }
  else
    { a with
      days_since_last_order := agent_days_since_last_order a current_date
      lifecycle_state := CustomerLifecycleState.ACTIVE }

/-- Model of `CustomerAgent.calculate_churn_probability`. -/
def CustomerAgentState.calculate_churn_probability (a : CustomerAgentState)
    (_current_date : Date) : ℚ :=
  let base_churn_probability : ℚ := 0.001
  let lifecycle_multiplier : ℚ :=
    match a.lifecycle_state with
    | CustomerLifecycleState.CHAMPION => 0.2
    | CustomerLifecycleState.ACTIVE => 1.0
    | CustomerLifecycleState.AT_RISK => 3.0
    | CustomerLifecycleState.DORMANT => 5.0
  let churn_probability := base_churn_probability * lifecycle_multiplier
  let churn_probability :=
    if 90 < a.days_since_last_order then
      churn_probability * (1 + (a.days_since_last_order : ℚ) / 365)
    else churn_probability
  let churn_probability :=
    if 5 < a.new_order_count ∧ a.campaign_impact_factor < 1.2 then churn_probability * 1.5
    else churn_probability
  min churn_probability 0.05

/-- The random draws consumed by one `CustomerAgent.step` call, in
source order: churn check, purchase-intent browsing, the four experience
draws with their two `random.uniform` deltas, and the four
`decide_order_placement` draws; `orderDraws` feeds the conditional
`generate_customer_order` call. -/
structure StepDraws where
  rChurn : ℚ
  rBrowse : ℚ
  rNeg : ℚ
  rPos : ℚ
  rLoy : ℚ
  loyaltyDelta : ℚ
  rSens : ℚ
  sensitivityDelta : ℚ
  rDiscovery : ℚ
  rFinal : ℚ
  rGuard : ℚ
  rSatGuard : ℚ
  orderDraws : OrderGenDraws

/-- The temporary `Customer` object the agent step builds for the
attribute updaters (note `created_at := current_date`, exactly as in the
source). Its `historical_purchase_frequency` aliases the agent's
`historical_orders` in Python; the embedding passes the same list. -/
def agent_customer_obj (a : CustomerAgentState) (current_date : Date) : Customer :=
  { id := a.customer_id
    email := a.email
    created_at := current_date
    historical_purchase_frequency := a.historical_orders
    historical_spending := a.historical_spending
    average_order_value := a.avg_order_value
    total_orders := a.total_orders
    is_new_customer := a.is_new_customer
    tickets_count := a.tickets_count
    lifecycle_state := a.lifecycle_state
    satisfaction_score := a.satisfaction_score
    purchase_intent_level := a.purchase_intent_level
    price_sensitivity := a.price_sensitivity
    brand_loyalty := a.brand_loyalty
    last_negative_experience_days := a.last_negative_experience_days }

/-- The `Customer` snapshot the agent step passes to
`generate_customer_order`; fields the source does not pass take their
pydantic defaults. -/
def agent_order_snapshot (a : CustomerAgentState) (current_date : Date) : Customer :=
  { id := a.customer_id
    email := a.email
    created_at := current_date
    historical_purchase_frequency := a.historical_orders
    historical_spending := a.historical_spending
    average_order_value := a.avg_order_value
    total_orders := a.total_orders
    is_new_customer := a.is_new_customer
    tickets_count := a.tickets_count
    lifecycle_state := a.lifecycle_state
    satisfaction_score := 0.7
    purchase_intent_level := 0.5
    price_sensitivity := 0.5
    brand_loyalty := 0.5
    last_negative_experience_days := 999 }

/-- Model of `CustomerAgent.step`. Returns the updated agent plus the
generated order when a purchase happens; the caller (the driver model)
applies the model-level side effects the Python agent performs through
`self.model` (revenue, order count) and the aliased append to the
initial customer's order list. -/
def CustomerAgent_step (sqrtOracle : ℕ → ℚ) (enable : Bool)
    (catalog : List CatalogProduct) (current_date : Date) (a : CustomerAgentState)
    (d : StepDraws) : Except String (CustomerAgentState × Option Order) :=
  let a := a.update_lifecycle_state current_date
  if a.is_churned then Except.ok (a, none)
  else
    let churn_probability := a.calculate_churn_probability current_date
    if d.rChurn ≤ churn_probability then Except.ok ({ a with is_churned := true }, none)
    else
      let days_since_first_order : ℤ :=
        match a.historical_orders with
        | [] => 365
        | o :: _ => max (dateToDays current_date - dateToDays o.order_date) 30
      let lifecycle_purchase_multiplier : ℚ :=
        match a.lifecycle_state with
        | CustomerLifecycleState.CHAMPION => 1.3
        | CustomerLifecycleState.ACTIVE => 1.0
        | CustomerLifecycleState.AT_RISK => 0.7
        | CustomerLifecycleState.DORMANT => 0.3
      let adjusted_campaign_impact := a.campaign_impact_factor * lifecycle_purchase_multiplier
      let cif := generate_campaign_impact_factor_q sqrtOracle enable
        adjusted_campaign_impact a.new_order_count current_date
      let a := { a with campaign_impact_factor := cif }
      let cobj := agent_customer_obj a current_date
      let cobj := update_customer_satisfaction cobj 1 false false
      let cobj := update_purchase_intent cobj 1 false d.rBrowse
      let cobj := update_customer_lifecycle_state cobj current_date
      let cobj := simulate_random_customer_experiences cobj current_date d.rNeg d.rPos
        d.rLoy d.loyaltyDelta d.rSens d.sensitivityDelta
      let a :=
        { a with
          satisfaction_score := cobj.satisfaction_score
          purchase_intent_level := cobj.purchase_intent_level
          price_sensitivity := cobj.price_sensitivity
          brand_loyalty := cobj.brand_loyalty
          last_negative_experience_days := cobj.last_negative_experience_days
          lifecycle_state := cobj.lifecycle_state }
      let will_order := decide_order_placement enable a.campaign_impact_factor
        a.historical_orders days_since_first_order current_date (some cobj)
        d.rDiscovery d.rFinal d.rGuard d.rSatGuard
      if will_order = false then Except.ok (a, none)
      else
        let a :=
          { a with
            tickets_count := a.tickets_count + 1
            days_since_last_order := 0 }
        let cobj := update_customer_satisfaction cobj 0 true false
        let a := { a with satisfaction_score := cobj.satisfaction_score }
        let a := { a with purchase_intent_level := max 0.1 (a.purchase_intent_level - 0.3) }
        match generate_customer_order catalog (agent_order_snapshot a current_date)
          current_date d.orderDraws with
        | Except.error e => Except.error e
        | Except.ok new_order =>
          let a :=
            { a with
              historical_orders := a.historical_orders ++ [new_order]
              historical_spending := a.historical_spending + new_order.total_spent
              total_orders := a.total_orders + 1
              new_order_count := a.new_order_count + 1 }
          let a := { a with avg_order_value := a.historical_spending / (a.total_orders : ℚ) }
          Except.ok (a, some new_order)

/-! ## Simulation driver (`customer_model.py`) -/

/-- One row of the data collector's model-level time series. -/
structure DailyRecord where
  new_customers_count : ℕ
  generated_revenue : ℚ
  received_orders_count : ℕ
deriving DecidableEq, Repr

structure CustomerModelState where
  customers : List Customer
  agents : List CustomerAgentState
  new_customers_count : ℕ
  generated_revenue : ℚ
  received_orders_count : ℕ
  current_date : Date
  series : List DailyRecord
deriving DecidableEq, Repr

/-- Model of `CustomerModel.__init__`: one agent per initial customer,
counters at zero, clock at the campaign start. -/
def CustomerModel_init (customers : List Customer) : CustomerModelState :=
  { customers := customers
    agents := customers.map CustomerAgent_init
    new_customers_count := 0
    generated_revenue := 0.0
    received_orders_count := 0
    current_date := CAMPAIGN_START
    series := [] }

/-- Apply the daily prize to the first agent whose `customer_id` matches
the drawn winner (the source selects matching agents and mutates the
first). -/
def boostWinner (agents : List CustomerAgentState) (winner_id : ℤ) (pz : Prize) :
    List CustomerAgentState :=
  match agents with
  | [] => []
  | a :: rest =>
    if a.customer_id = winner_id then
      { a with
        campaign_impact_factor := a.campaign_impact_factor + pz.campaign_impact_increase
        hasWonImpactFactor := a.hasWonImpactFactor + pz.campaign_impact_increase
        prize_wins := a.prize_wins ++ [pz.prize] } :: rest
    else a :: boostWinner rest winner_id pz

/-- In Python the agent's `historical_orders` list is the same object as
`historical_purchase_frequency` of the initial `Customer` record at the
same roster position, so the in-place order append is visible through
both; the embedding mirrors the aliased append at that position. No
other `Customer` field is written (Python ints are immutable, so
`self.tickets_count += 1` rebinds only the agent attribute). -/
def appendOrderAt : List Customer → ℕ → Order → List Customer
  | [], _, _ => []
  | c :: rest, 0, o =>
    { c with historical_purchase_frequency := c.historical_purchase_frequency ++ [o] } :: rest
  | c :: rest, Nat.succ i, o => c :: appendOrderAt rest i o

/-- Sequential `agents.do("step")`: each agent steps in roster order,
threading the model-level revenue and order counters and the aliased
appends into the customer roster. -/
def step_agents_go (sqrtOracle : ℕ → ℚ) (enable : Bool) (catalog : List CatalogProduct)
    (current_date : Date) (agentDraws : ℕ → StepDraws) :
    ℕ → List CustomerAgentState → List Customer → ℚ → ℕ →
    Except String (List CustomerAgentState × List Customer × ℚ × ℕ)
  | _, [], customers, revenue, orders => Except.ok ([], customers, revenue, orders)
  | i, a :: rest, customers, revenue, orders =>
    match CustomerAgent_step sqrtOracle enable catalog current_date a (agentDraws i) with
    | Except.error e => Except.error e
    | Except.ok (a2, none) =>
      match step_agents_go sqrtOracle enable catalog current_date agentDraws (i + 1) rest
        customers revenue orders with
      | Except.error e => Except.error e
      | Except.ok (as2, cs2, rev2, ord2) => Except.ok (a2 :: as2, cs2, rev2, ord2)
    | Except.ok (a2, some o) =>
      match step_agents_go sqrtOracle enable catalog current_date agentDraws (i + 1) rest
        (appendOrderAt customers i o) (revenue + o.total_spent) (orders + 1) with
      | Except.error e => Except.error e
      | Except.ok (as2, cs2, rev2, ord2) => Except.ok (a2 :: as2, cs2, rev2, ord2)

/-- The random draws consumed by one `CustomerModel.new_day` call. -/
structure DayDraws where
  winnerIdx : ℕ
  agentDraws : ℕ → StepDraws

/-- Model of `CustomerModel.new_day`: evaluate the daily prize and, if
present, award it to the weighted-random winner drawn from
`self.customers`; step every agent; collect the model-level reporters;
advance the date by one day. -/
def new_day (sqrtOracle : ℕ → ℚ) (enable : Bool) (catalog : List CatalogProduct)
    (s : CustomerModelState) (d : DayDraws) : Except String CustomerModelState :=
  let prized : Except String CustomerModelState :=
    match get_daily_prize s.current_date with
    | none => Except.ok s
    | some daily_prize =>
      match get_prize_winner s.customers d.winnerIdx with
      | Except.error e => Except.error e
      | Except.ok prize_winner =>
        Except.ok { s with agents := boostWinner s.agents prize_winner.id daily_prize }
  match prized with
  | Except.error e => Except.error e
  | Except.ok s =>
    match step_agents_go sqrtOracle enable catalog s.current_date d.agentDraws 0 s.agents
      s.customers s.generated_revenue s.received_orders_count with
    | Except.error e => Except.error e
    | Except.ok (agents2, customers2, revenue2, orders2) =>
      let s :=
        { s with
          agents := agents2
          customers := customers2
          generated_revenue := revenue2
          received_orders_count := orders2 }
      let s := { s with series := s.series ++
        [DailyRecord.mk s.new_customers_count s.generated_revenue s.received_orders_count] }
      Except.ok { s with current_date := nextDay s.current_date }

/-- Model of `CustomerModel.step`: run `new_day` while the clock has not
passed the campaign end (the returned flag is the source's return
value). -/
def CustomerModel_step (sqrtOracle : ℕ → ℚ) (enable : Bool)
    (catalog : List CatalogProduct) (s : CustomerModelState) (d : DayDraws) :
    Except String (CustomerModelState × Bool) :=
  if dateToDays s.current_date ≤ dateToDays CAMPAIGN_END then
    match new_day sqrtOracle enable catalog s d with
    | Except.error e => Except.error e
    | Except.ok s2 => Except.ok (s2, true)
  else Except.ok (s, false)

/-- Iterated daily steps of the driver (the body of
`run_full_campaign`), one `DayDraws` per simulated day. -/
def run_days (sqrtOracle : ℕ → ℚ) (enable : Bool) (catalog : List CatalogProduct) :
    CustomerModelState → List DayDraws → Except String CustomerModelState
  | s, [] => Except.ok s
  | s, d :: ds =>
    match new_day sqrtOracle enable catalog s d with
    | Except.error e => Except.error e
    | Except.ok s2 => run_days sqrtOracle enable catalog s2 ds

/-! ## Concrete fixtures used by witnesses and counterexamples -/

/-- A one-product catalog standing for a loaded
`product_catalog.json`. -/
def sampleCatalog : List CatalogProduct :=
  [{ name := "A", avg_price := 10, frequency := 5, preference_score := 1.0,
     avg_quantity := 2, category := "c" }]

/-- Concrete order-generation draws: unit value jitter, no item-count
jitter, always the first product, no quantity jitter. -/
def sampleOrderDraws : OrderGenDraws :=
  { rValueJitter := 1, normJitter := 0, itemDraws := fun _ => ⟨0.5, 0, 0⟩,
    orderIdSuffix := 1000 }

/-- A concrete initial customer with one ticket and no purchase
history. -/
def sampleCustomer : Customer :=
  { id := 1, email := "c1@x.com", created_at := ⟨2025, 1, 1⟩,
    historical_purchase_frequency := [], historical_spending := 0,
    average_order_value := 0, total_orders := 0, is_new_customer := false,
    tickets_count := 1, lifecycle_state := CustomerLifecycleState.ACTIVE,
    satisfaction_score := 0.7, purchase_intent_level := 0.5, price_sensitivity := 0.5,
    brand_loyalty := 0.5, last_negative_experience_days := 999 }

/-- Per-agent draws on which no random event fires and no purchase
happens. -/
def quietStepDraws : StepDraws :=
  { rChurn := 1, rBrowse := 1, rNeg := 1, rPos := 1, rLoy := 1, loyaltyDelta := 0,
    rSens := 1, sensitivityDelta := 0, rDiscovery := 0.5, rFinal := 1, rGuard := 0,
    rSatGuard := 0, orderDraws := sampleOrderDraws }

/-- Concrete draws for one driver day. -/
def sampleDayDraws : DayDraws := { winnerIdx := 0, agentDraws := fun _ => quietStepDraws }

/-- Concrete acquisition draws: the first in-campaign Bernoulli trial
succeeds, no weekend bonus. -/
def sampleAcqDraws : AcqDraws :=
  { rAcquire := 1, rTrials := fun k => if k = 0 then 0.01 else 1, rBonusChance := 0.9,
    bonusCount := 0, orderDraws := fun _ => sampleOrderDraws }

/-- A computable square-root stand-in used to instantiate `sqrtOracle`
in closed driver evaluations (exact on the perfect squares that occur
there). -/
def natSqrtOracle : ℕ → ℚ := fun n => (Nat.sqrt n : ℚ)

/-! ## Claim C3 -/

/-- C3: `generate_campaign_impact_factor` returns exactly 1.0 for every
input when campaign effects are disabled or when the current date is
outside `[CAMPAIGN_START, CAMPAIGN_END]`; otherwise it equals the clamp
into `[1.0, MAX_CAMPAIGN_IMPACT_FACTOR]` of
`current_factor + sqrt(campaign_orders_count) * CAMPAIGN_ENGAGEMENT_MULTIPLIER`
multiplied (before the clamp, as the spec sequences the steps) by
`max (1 - (count - 8) * 0.02) 0.8` when `campaign_orders_count > 8`. -/
theorem generate_campaign_impact_factor_spec (enable : Bool) (f : ℝ) (count : ℕ)
    (d : Date) :
    ((enable = false ∨ dateToDays d < dateToDays CAMPAIGN_START ∨
        dateToDays CAMPAIGN_END < dateToDays d) →
      generate_campaign_impact_factor enable f count d = 1) ∧
    (enable = true → dateToDays CAMPAIGN_START ≤ dateToDays d →
      dateToDays d ≤ dateToDays CAMPAIGN_END →
      generate_campaign_impact_factor enable f count d =
        max (min ((f + Real.sqrt (count : ℝ) * ((CAMPAIGN_ENGAGEMENT_MULTIPLIER : ℚ) : ℝ)) *
            (if 8 < count then max (1 - ((count : ℝ) - 8) * 0.02) 0.8 else 1))
          ((MAX_CAMPAIGN_IMPACT_FACTOR : ℚ) : ℝ)) 1) := by
  constructor
  · intro h
    by_cases he : enable = false
    · simp only [generate_campaign_impact_factor, he, if_pos]
      norm_num
    · rcases h with h | h
      · exact absurd h he
      · simp only [generate_campaign_impact_factor, he, if_neg, if_false]
        rw [if_pos h]
        norm_num
  · intro he h1 h2
    have hw : ¬ (dateToDays d < dateToDays CAMPAIGN_START ∨
        dateToDays CAMPAIGN_END < dateToDays d) := by omega
    rcases Nat.eq_zero_or_pos count with hc | hc
    · subst hc
      simp [generate_campaign_impact_factor, he, hw]
      norm_num
    · by_cases h8 : 8 < count
      · simp only [generate_campaign_impact_factor, he, hw, hc, h8, if_true, if_false,
          Bool.true_eq_false, ite_false, ite_true, if_pos, if_neg, not_false_iff]
        norm_num
      · simp [generate_campaign_impact_factor, he, hw, hc, h8]
        norm_num

/-- Witness for C3 at concrete inputs: disabled campaign effects yield
1.0, and an in-window date with a perfect-square order count evaluates
the clamp formula (here to 1.6). -/
theorem generate_campaign_impact_factor_spec_witness :
    generate_campaign_impact_factor false 1.5 3 ⟨2025, 10, 1⟩ = 1 ∧
    generate_campaign_impact_factor true 1.3 4 ⟨2025, 10, 1⟩ = 1.6 := by
  constructor
  · exact (generate_campaign_impact_factor_spec false 1.5 3 ⟨2025, 10, 1⟩).1 (Or.inl rfl)
  · have h := (generate_campaign_impact_factor_spec true 1.3 4 ⟨2025, 10, 1⟩).2 rfl
      (by decide) (by decide)
    rw [h]
    have h4 : ((4 : ℕ) : ℝ) = 2 ^ 2 := by norm_num
    rw [h4, Real.sqrt_sq (by norm_num)]
    norm_num [CAMPAIGN_ENGAGEMENT_MULTIPLIER, MAX_CAMPAIGN_IMPACT_FACTOR]

/-! ## Claim C4 -/

/-- C4: the market saturation expression of
`decide_new_customer_acquisition` divides the existing-customer count by
half of itself, so it is the constant
`CUSTOMER_ACQUISITION_SATURATION_MIN_FACTOR = 1/2` at every positive
count (evaluated here at 1, 10 and 1000000): it never decreases from 1
toward the floor as the customer base grows, contradicting the claim's
`max(min_saturation, 1 - existing_count/limit)` reading. -/
theorem market_saturation_factor_is_constant :
    market_saturation_factor 1 = Except.ok (1/2) ∧
    market_saturation_factor 10 = Except.ok (1/2) ∧
    market_saturation_factor 1000000 = Except.ok (1/2) :=
  ⟨by with_unfolding_all rfl, by with_unfolding_all rfl, by with_unfolding_all rfl⟩

/-! ## Claim C5 -/

/-- C5: with campaign effects enabled, a date inside the campaign window
and `existing_customers_count = 0`, `decide_new_customer_acquisition`
reaches the saturation expression `count / (count / 2)` whose denominator
is zero, so the call raises `ZeroDivisionError` instead of returning a
customer list, for every metrics argument and every random draw. -/
theorem acquisition_saturation_divide_by_zero (catalog : List CatalogProduct)
    (d : Date) (metrics : Option CampaignEngagementMetrics) (draws : AcqDraws)
    (h1 : dateToDays CAMPAIGN_START ≤ dateToDays d)
    (h2 : dateToDays d ≤ dateToDays CAMPAIGN_END) :
    decide_new_customer_acquisition true catalog d 0 metrics draws =
      Except.error "ZeroDivisionError: float division by zero" := by
  have hw : ¬ (dateToDays d < dateToDays CAMPAIGN_START ∨
      dateToDays CAMPAIGN_END < dateToDays d) := by omega
  have hm : market_saturation_factor 0 =
      Except.error "ZeroDivisionError: float division by zero" := by
    with_unfolding_all rfl
  simp only [decide_new_customer_acquisition]
  rw [if_neg (by simp), if_neg hw]
  simp [hm]

/-- Witness for C5 at a concrete in-window date. -/
theorem acquisition_saturation_divide_by_zero_witness :
    (dateToDays CAMPAIGN_START ≤ dateToDays ⟨2025, 9, 6⟩ ∧
      dateToDays ⟨2025, 9, 6⟩ ≤ dateToDays CAMPAIGN_END) ∧
    decide_new_customer_acquisition true sampleCatalog ⟨2025, 9, 6⟩ 0 none sampleAcqDraws =
      Except.error "ZeroDivisionError: float division by zero" :=
  ⟨⟨by decide, by decide⟩,
    acquisition_saturation_divide_by_zero sampleCatalog ⟨2025, 9, 6⟩ none sampleAcqDraws
      (by decide) (by decide)⟩

/-! ## Claim C7 -/

/-- The tools-level classifier writes only `lifecycle_state`. -/
lemma update_customer_lifecycle_state_frame (c : Customer) (d : Date) :
    (update_customer_lifecycle_state c d).historical_purchase_frequency =
        c.historical_purchase_frequency ∧
      (update_customer_lifecycle_state c d).created_at = c.created_at := by
  unfold update_customer_lifecycle_state
  split_ifs <;> exact ⟨rfl, rfl⟩

/-- The tools-level classifier reads only the purchase history and the
account-creation date. -/
lemma update_customer_lifecycle_state_congr (c₁ c₂ : Customer) (d : Date)
    (hh : c₁.historical_purchase_frequency = c₂.historical_purchase_frequency)
    (hc : c₁.created_at = c₂.created_at) :
    (update_customer_lifecycle_state c₁ d).lifecycle_state =
      (update_customer_lifecycle_state c₂ d).lifecycle_state := by
  unfold update_customer_lifecycle_state lifecycle_days_since_last_order
    lifecycle_order_frequency lifecycle_avg_order_value
  rw [hh, hc]
  split_ifs <;> rfl

/-- Characterisation of the DORMANT output of the tools-level
classifier. -/
lemma update_customer_lifecycle_state_dormant_iff (c : Customer) (d : Date) :
    (update_customer_lifecycle_state c d).lifecycle_state = CustomerLifecycleState.DORMANT ↔
      c.historical_purchase_frequency ≠ [] ∧ 180 < lifecycle_days_since_last_order c d := by
  unfold update_customer_lifecycle_state
  by_cases h : c.historical_purchase_frequency = []
  · simp [h]
  · rw [if_neg h]
    split_ifs with h1 h2 h3 <;> simp [h, h1]

/-- C7 (amended): the lifecycle classification of
`update_customer_lifecycle_state` (the tools-level call site) is a
deterministic and idempotent function of the purchase history,
account-creation date and current date, assigns DORMANT exactly when the
history is nonempty with days-since-last-order above 180, maps an empty
history to ACTIVE, and otherwise follows the stated AT_RISK / CHAMPION /
ACTIVE priority chain. The agent-level call site
(`CustomerAgent.update_lifecycle_state`) shares the DORMANT rule on a
nonempty history but, on an empty history, yields ACTIVE only for a
customer marked new and DORMANT otherwise (its AT_RISK / CHAMPION rules
also use six-month windows instead of the stated chain). -/
theorem lifecycle_classification_spec :
    (∀ (c₁ c₂ : Customer) (d : Date),
      c₁.historical_purchase_frequency = c₂.historical_purchase_frequency →
      c₁.created_at = c₂.created_at →
      (update_customer_lifecycle_state c₁ d).lifecycle_state =
        (update_customer_lifecycle_state c₂ d).lifecycle_state) ∧
    (∀ (c : Customer) (d : Date),
      (update_customer_lifecycle_state (update_customer_lifecycle_state c d) d).lifecycle_state =
        (update_customer_lifecycle_state c d).lifecycle_state) ∧
    (∀ (c : Customer) (d : Date), c.historical_purchase_frequency = [] →
      (update_customer_lifecycle_state c d).lifecycle_state = CustomerLifecycleState.ACTIVE) ∧
    (∀ (c : Customer) (d : Date),
      ((update_customer_lifecycle_state c d).lifecycle_state = CustomerLifecycleState.DORMANT ↔
        c.historical_purchase_frequency ≠ [] ∧ 180 < lifecycle_days_since_last_order c d)) ∧
    (∀ (c : Customer) (d : Date), c.historical_purchase_frequency ≠ [] →
      ¬ 180 < lifecycle_days_since_last_order c d →
      (update_customer_lifecycle_state c d).lifecycle_state =
        (if 90 < lifecycle_days_since_last_order c d ∧ lifecycle_order_frequency c d < 0.5 then
          CustomerLifecycleState.AT_RISK
        else if 50 < lifecycle_avg_order_value c ∧ 1.0 < lifecycle_order_frequency c d then
          CustomerLifecycleState.CHAMPION
        else CustomerLifecycleState.ACTIVE)) ∧
    (∀ (a : CustomerAgentState) (d : Date), a.historical_orders ≠ [] →
      ((a.update_lifecycle_state d).lifecycle_state = CustomerLifecycleState.DORMANT ↔
        180 < agent_days_since_last_order a d)) ∧
    (∀ (a : CustomerAgentState) (d : Date), a.historical_orders = [] →
      (a.update_lifecycle_state d).lifecycle_state =
        (if a.is_new_customer then CustomerLifecycleState.ACTIVE
         else CustomerLifecycleState.DORMANT)) := by
  refine ⟨fun c₁ c₂ d hh hc => update_customer_lifecycle_state_congr c₁ c₂ d hh hc,
    fun c d => ?_, fun c d h => ?_,
    fun c d => update_customer_lifecycle_state_dormant_iff c d,
    fun c d h h180 => ?_, fun a d h => ?_, fun a d h => ?_⟩
  · exact update_customer_lifecycle_state_congr _ _ d
      (update_customer_lifecycle_state_frame c d).1
      (update_customer_lifecycle_state_frame c d).2
  · simp [update_customer_lifecycle_state, h]
  · unfold update_customer_lifecycle_state
    rw [if_neg h, if_neg h180]
    split_ifs <;> rfl
  · unfold CustomerAgentState.update_lifecycle_state
    rw [if_neg h]
    split_ifs with h1 h2 h3 h4 <;> simp_all
  · simp [CustomerAgentState.update_lifecycle_state, h]

/-- An initial agent with an empty order history and
`is_new_customer = false`. -/
def sampleAgentNoHistory : CustomerAgentState := CustomerAgent_init sampleCustomer

/-- Counterexample to C7 as stated: at the agent-level
lifecycle-classification call site, a customer with no purchase history
that is not flagged new is classified DORMANT, not ACTIVE (and not via
any days-since-last-order comparison). -/
theorem agent_lifecycle_no_history_not_active :
    (sampleAgentNoHistory.update_lifecycle_state ⟨2025, 9, 1⟩).lifecycle_state =
      CustomerLifecycleState.DORMANT ∧
    CustomerLifecycleState.DORMANT ≠ CustomerLifecycleState.ACTIVE :=
  ⟨by with_unfolding_all rfl, by decide⟩

/-- Witness for C7's amended classification at concrete inputs: an
empty history yields ACTIVE at the tools-level call site, and the
agent-level call site's empty-history rule keys on the new-customer
flag. -/
theorem lifecycle_classification_spec_witness :
    sampleCustomer.historical_purchase_frequency = [] ∧
    (update_customer_lifecycle_state sampleCustomer ⟨2025, 9, 1⟩).lifecycle_state =
      CustomerLifecycleState.ACTIVE ∧
    (sampleAgentNoHistory.update_lifecycle_state ⟨2025, 9, 1⟩).lifecycle_state =
      (if sampleAgentNoHistory.is_new_customer then CustomerLifecycleState.ACTIVE
       else CustomerLifecycleState.DORMANT) :=
  ⟨rfl, lifecycle_classification_spec.2.2.1 sampleCustomer ⟨2025, 9, 1⟩ rfl,
    lifecycle_classification_spec.2.2.2.2.2.2 sampleAgentNoHistory ⟨2025, 9, 1⟩ rfl⟩


/-! ## Claim C8 -/

/-- All four bounded behavioural scores of a customer lie in `[0, 1]`. -/
def scores_in_unit_interval (c : Customer) : Prop :=
  0 ≤ c.satisfaction_score ∧ c.satisfaction_score ≤ 1 ∧
  0 ≤ c.purchase_intent_level ∧ c.purchase_intent_level ≤ 1 ∧
  0 ≤ c.brand_loyalty ∧ c.brand_loyalty ≤ 1 ∧
  0 ≤ c.price_sensitivity ∧ c.price_sensitivity ≤ 1

lemma satisfaction_after_decay_bounds (c : Customer) (days : ℤ)
    (h1 : 0 ≤ c.satisfaction_score) (h2 : c.satisfaction_score ≤ 1) (hd : 0 ≤ days) :
    0 ≤ satisfaction_after_decay c days ∧ satisfaction_after_decay c days ≤ 1 := by
  have hdq : (0 : ℚ) ≤ (days : ℚ) := by exact_mod_cast hd
  have hdecay : (0 : ℚ) ≤ (days : ℚ) * SATISFACTION_DECAY_RATE := by
    have hr : (0 : ℚ) ≤ SATISFACTION_DECAY_RATE := by norm_num [SATISFACTION_DECAY_RATE]
    positivity
  unfold satisfaction_after_decay
  constructor
  · simp only [le_max_iff]
    left
    norm_num
  · simp only [max_le_iff]
    constructor
    · norm_num
    · linarith

lemma satisfaction_recovery_bounds (s : ℚ) (lastNeg days : ℤ)
    (h1 : 0 ≤ s) (h2 : s ≤ 1) :
    0 ≤ (satisfaction_recovery s lastNeg days).1 ∧
      (satisfaction_recovery s lastNeg days).1 ≤ 1 := by
  unfold satisfaction_recovery
  split_ifs with ha hb
  · have h30 : (30 : ℚ) < ((lastNeg + days : ℤ) : ℚ) := by exact_mod_cast hb
    have hrec : (0 : ℚ) ≤ ((lastNeg + days : ℤ) - 30 : ℚ) * SATISFACTION_RECOVERY_RATE := by
      apply mul_nonneg (by linarith)
      norm_num [SATISFACTION_RECOVERY_RATE]
    constructor
    · simp only [le_min_iff]
      constructor
      · norm_num
      · push_cast at hrec ⊢
        linarith
    · simp only [min_le_iff]
      left
      norm_num
  · exact ⟨h1, h2⟩
  · exact ⟨h1, h2⟩

lemma satisfaction_after_update_bounds (c : Customer) (days : ℤ) (hp hn : Bool)
    (h1 : 0 ≤ c.satisfaction_score) (h2 : c.satisfaction_score ≤ 1) (hd : 0 ≤ days) :
    0 ≤ (satisfaction_after_update c days hp hn).1 ∧
      (satisfaction_after_update c days hp hn).1 ≤ 1 := by
  obtain ⟨d1, d2⟩ := satisfaction_after_decay_bounds c days h1 h2 hd
  obtain ⟨r1, r2⟩ := satisfaction_recovery_bounds (satisfaction_after_decay c days)
    c.last_negative_experience_days days d1 d2
  unfold satisfaction_after_update
  dsimp only
  set R := satisfaction_recovery (satisfaction_after_decay c days)
    c.last_negative_experience_days days with hR
  have hm1 : min 1.0 (R.1 + 0.1) ≤ 1.0 := min_le_left _ _
  have hm0 : (0 : ℚ) ≤ min 1.0 (R.1 + 0.1) := le_min (by norm_num) (by linarith)
  have hs0 : 0 ≤ (if hp = true then min 1.0 (R.1 + 0.1) else R.1) := by
    split_ifs
    · exact hm0
    · exact r1
  have hs1 : (if hp = true then min 1.0 (R.1 + 0.1) else R.1) ≤ 1 := by
    split_ifs
    · linarith
    · exact r2
  set s := if hp = true then min 1.0 (R.1 + 0.1) else R.1 with hs
  split_ifs with hneg
  · dsimp only
    constructor
    · simp only [le_max_iff]
      left
      norm_num
    · simp only [max_le_iff]
      exact ⟨by norm_num, by linarith⟩
  · exact ⟨hs0, hs1⟩

lemma update_customer_satisfaction_bounds (c : Customer) (days : ℤ)
    (hp hn : Bool) (h : scores_in_unit_interval c) (hd : 0 ≤ days) :
    scores_in_unit_interval (update_customer_satisfaction c days hp hn) := by
  obtain ⟨h1, h2, h3, h4, h5, h6, h7, h8⟩ := h
  obtain ⟨u1, u2⟩ := satisfaction_after_update_bounds c days hp hn h1 h2 hd
  exact ⟨u1, u2, h3, h4, h5, h6, h7, h8⟩

lemma update_purchase_intent_bounds (c : Customer) (days : ℤ) (sb : Bool) (rb : ℚ)
    (h : scores_in_unit_interval c) (hd : 0 ≤ days) :
    scores_in_unit_interval (update_purchase_intent c days sb rb) := by
  obtain ⟨h1, h2, h3, h4, h5, h6, h7, h8⟩ := h
  have hdq : (0 : ℚ) ≤ (days : ℚ) := by exact_mod_cast hd
  have hdecay : (0 : ℚ) ≤ (days : ℚ) * PURCHASE_INTENT_DECAY_RATE := by
    have hr : (0 : ℚ) ≤ PURCHASE_INTENT_DECAY_RATE := by norm_num [PURCHASE_INTENT_DECAY_RATE]
    positivity
  have hi0 : 0 ≤ max 0.0 (c.purchase_intent_level - (days : ℚ) * PURCHASE_INTENT_DECAY_RATE) := by
    simp only [le_max_iff]
    left
    norm_num
  have hi1 : max 0.0 (c.purchase_intent_level - (days : ℚ) * PURCHASE_INTENT_DECAY_RATE) ≤ 1 := by
    simp only [max_le_iff]
    constructor
    · norm_num
    · linarith
  unfold update_purchase_intent
  split_ifs
  · refine ⟨h1, h2, ?_, ?_, h5, h6, h7, h8⟩
    · simp only [le_min_iff]
      constructor
      · norm_num
      · norm_num [PURCHASE_INTENT_BOOST_AFTER_BROWSE]
        linarith
    · simp only [min_le_iff]
      left
      norm_num
  · exact ⟨h1, h2, hi0, hi1, h5, h6, h7, h8⟩

lemma scores_ite_update_sat (c : Customer) (P : Prop) [Decidable P]
    (h : scores_in_unit_interval c) :
    scores_in_unit_interval (if P then update_customer_satisfaction c 0 false true else c) := by
  split_ifs with hh
  · exact update_customer_satisfaction_bounds c 0 false true h le_rfl
  · exact h

lemma scores_ite_pos_bump (c : Customer) (P : Prop) [Decidable P]
    (h : scores_in_unit_interval c) :
    scores_in_unit_interval (if P then
      { c with satisfaction_score := min 1.0 (c.satisfaction_score + 0.05) } else c) := by
  obtain ⟨h1, h2, h3, h4, h5, h6, h7, h8⟩ := h
  split_ifs with hh
  · exact ⟨le_min (by norm_num) (by linarith), le_trans (min_le_left _ _) (by norm_num),
      h3, h4, h5, h6, h7, h8⟩
  · exact ⟨h1, h2, h3, h4, h5, h6, h7, h8⟩

lemma scores_ite_loyalty_walk (c : Customer) (ld : ℚ) (P : Prop) [Decidable P]
    (h : scores_in_unit_interval c) :
    scores_in_unit_interval (if P then
      { c with brand_loyalty := max 0.0 (min 1.0 (c.brand_loyalty + ld)) } else c) := by
  obtain ⟨h1, h2, h3, h4, h5, h6, h7, h8⟩ := h
  split_ifs with hh
  · refine ⟨h1, h2, h3, h4, ?_, ?_, h7, h8⟩
    · simp only [le_max_iff]
      left
      norm_num
    · simp only [max_le_iff]
      exact ⟨by norm_num, le_trans (min_le_left _ _) (by norm_num)⟩
  · exact ⟨h1, h2, h3, h4, h5, h6, h7, h8⟩

lemma scores_ite_sensitivity_walk (c : Customer) (sd : ℚ) (P : Prop) [Decidable P]
    (h : scores_in_unit_interval c) :
    scores_in_unit_interval (if P then
      { c with price_sensitivity := max 0.0 (min 1.0 (c.price_sensitivity + sd)) } else c) := by
  obtain ⟨h1, h2, h3, h4, h5, h6, h7, h8⟩ := h
  split_ifs with hh
  · refine ⟨h1, h2, h3, h4, h5, h6, ?_, ?_⟩
    · simp only [le_max_iff]
      left
      norm_num
    · simp only [max_le_iff]
      exact ⟨by norm_num, le_trans (min_le_left _ _) (by norm_num)⟩
  · exact ⟨h1, h2, h3, h4, h5, h6, h7, h8⟩

lemma simulate_random_customer_experiences_bounds (c : Customer) (dd : Date)
    (rNeg rPos rLoy ld rSens sd : ℚ) (h : scores_in_unit_interval c) :
    scores_in_unit_interval
      (simulate_random_customer_experiences c dd rNeg rPos rLoy ld rSens sd) := by
  unfold simulate_random_customer_experiences
  exact scores_ite_sensitivity_walk _ sd _
    (scores_ite_loyalty_walk _ ld _
      (scores_ite_pos_bump _ _
        (scores_ite_update_sat _ _ h)))

/-- C8: starting from in-range scores, each of
`update_customer_satisfaction`, `update_purchase_intent` and
`simulate_random_customer_experiences` keeps the satisfaction score,
purchase intent level, brand loyalty and price sensitivity inside
`[0, 1]`, for every nonnegative day count, flag setting and random draw
(so the bounds hold after any sequence of daily updates). -/
theorem bounded_scores_stay_in_unit_interval (c : Customer) (days : ℤ)
    (hp hn sb : Bool) (rb : ℚ) (dd : Date) (rNeg rPos rLoy ld rSens sd : ℚ)
    (h : scores_in_unit_interval c) (hd : 0 ≤ days) :
    scores_in_unit_interval (update_customer_satisfaction c days hp hn) ∧
    scores_in_unit_interval (update_purchase_intent c days sb rb) ∧
    scores_in_unit_interval
      (simulate_random_customer_experiences c dd rNeg rPos rLoy ld rSens sd) :=
  ⟨update_customer_satisfaction_bounds c days hp hn h hd,
    update_purchase_intent_bounds c days sb rb h hd,
    simulate_random_customer_experiences_bounds c dd rNeg rPos rLoy ld rSens sd h⟩

/-- Witness for C8 at a concrete customer and concrete draws. -/
theorem bounded_scores_stay_in_unit_interval_witness :
    scores_in_unit_interval sampleCustomer ∧
    scores_in_unit_interval (update_customer_satisfaction sampleCustomer 1 true false) :=
  ⟨by norm_num [scores_in_unit_interval, sampleCustomer],
    (bounded_scores_stay_in_unit_interval sampleCustomer 1 true false false 1 ⟨2025, 9, 1⟩
      1 1 1 0 1 0 (by norm_num [scores_in_unit_interval, sampleCustomer]) (by norm_num)).1⟩


/-! ## Claim C10 -/

lemma weighted_customers_length (l : List Customer) :
    (weighted_customers l).length = (l.map (fun c => c.tickets_count)).sum := by
  induction l with
  | nil => rfl
  | cons a t ih =>
    simp only [weighted_customers, List.flatMap_cons, List.length_append,
      List.length_replicate, List.map_cons, List.sum_cons]
    simp only [weighted_customers] at ih
    rw [ih]

lemma mem_weighted_customers {l : List Customer} {c : Customer}
    (h : c ∈ weighted_customers l) : c ∈ l := by
  rcases List.mem_flatMap.mp h with ⟨x, hx, hcx⟩
  rcases List.eq_of_mem_replicate hcx with rfl
  exact hx

lemma weighted_customers_count (l : List Customer) (c : Customer)
    (hmem : c ∈ l) (hnd : l.Nodup) :
    (weighted_customers l).count c = c.tickets_count := by
  induction l with
  | nil => cases hmem
  | cons a t ih =>
    rw [List.nodup_cons] at hnd
    rcases List.mem_cons.mp hmem with h | h
    · subst h
      have hzero : (weighted_customers t).count c = 0 := by
        apply List.count_eq_zero.mpr
        intro hmm
        exact hnd.1 (mem_weighted_customers hmm)
      simp only [weighted_customers, List.flatMap_cons, List.count_append]
      simp only [weighted_customers] at hzero
      rw [hzero, List.count_replicate]
      simp
    · have hne : c ≠ a := fun he => hnd.1 (he ▸ h)
      simp only [weighted_customers, List.flatMap_cons, List.count_append]
      rw [List.count_replicate, if_neg (by simpa using Ne.symm hne)]
      simp only [weighted_customers] at ih
      rw [ih h hnd.2]
      exact Nat.zero_add _

/-- C10: over any list of pairwise-distinct customers, the eligible set
of `get_prize_winner` is exactly the customers with a positive ticket
count; an empty eligible set makes the call fail with the
no-eligible-winner error and no winner; otherwise the winner is the
uniform draw from the weighted pool, whose size is the total ticket
count of the eligible customers and which contains each eligible
customer exactly `tickets_count` times — so each eligible customer wins
with probability `tickets_count / total tickets`. -/
theorem get_prize_winner_spec (customers : List Customer) (rIdx : ℕ)
    (hnd : customers.Nodup) :
    (∀ c : Customer, c ∈ eligible_customers customers ↔
      c ∈ customers ∧ 0 < c.tickets_count) ∧
    (eligible_customers customers = [] →
      get_prize_winner customers rIdx =
        Except.error "No customers with tickets available for prize selection") ∧
    (eligible_customers customers ≠ [] →
      get_prize_winner customers rIdx =
        Except.ok ((weighted_customers (eligible_customers customers)).getD
          (rIdx % (weighted_customers (eligible_customers customers)).length) default) ∧
      (weighted_customers (eligible_customers customers)).length =
        ((eligible_customers customers).map (fun c => c.tickets_count)).sum ∧
      ∀ c ∈ eligible_customers customers,
        (weighted_customers (eligible_customers customers)).count c = c.tickets_count) := by
  refine ⟨fun c => ?_, fun h => ?_, fun h => ?_⟩
  · simp [eligible_customers, List.mem_filter]
  · simp [get_prize_winner, h]
  · refine ⟨by simp [get_prize_winner, h], weighted_customers_length _,
      fun c hc => weighted_customers_count _ c hc (hnd.filter _)⟩

/-- A second concrete customer holding seven tickets. -/
def sampleCustomerB : Customer :=
  { sampleCustomer with id := 2, email := "c2@x.com", tickets_count := 7 }

/-- Witness for C10 on the concrete roster `[1 ticket, 7 tickets]`: the
pool assigns the seven-ticket customer 7 of the 8 slots. -/
theorem get_prize_winner_spec_witness :
    ([sampleCustomer, sampleCustomerB].Nodup) ∧
    (weighted_customers (eligible_customers [sampleCustomer, sampleCustomerB])).count
      sampleCustomerB = sampleCustomerB.tickets_count ∧
    (weighted_customers (eligible_customers [sampleCustomer, sampleCustomerB])).length =
      ((eligible_customers [sampleCustomer, sampleCustomerB]).map
        (fun c => c.tickets_count)).sum := by
  have hAB : sampleCustomer ≠ sampleCustomerB := fun h =>
    absurd (congrArg Customer.id h) (by decide)
  have hnd : ([sampleCustomer, sampleCustomerB]).Nodup := by
    simp [List.nodup_cons, hAB]
  have h := get_prize_winner_spec [sampleCustomer, sampleCustomerB] 3 hnd
  have hmemB : sampleCustomerB ∈ eligible_customers [sampleCustomer, sampleCustomerB] :=
    (h.1 sampleCustomerB).mpr ⟨by simp, by norm_num [sampleCustomerB, sampleCustomer]⟩
  have hne : eligible_customers [sampleCustomer, sampleCustomerB] ≠ [] :=
    List.ne_nil_of_mem hmemB
  exact ⟨hnd, (h.2.2 hne).2.2 sampleCustomerB hmemB, (h.2.2 hne).2.1⟩


/-! ## Claim C1 -/

lemma base_daily_probability_nonneg (n : ℕ) (hd : ℤ) :
    0 ≤ base_daily_probability n hd := by
  unfold base_daily_probability
  split_ifs with h
  · norm_num [NEW_CUSTOMER_BASELINE_PROBABILITY]
  · refine le_min ?_ (by norm_num)
    apply div_nonneg (by norm_num)
    exact le_trans (by norm_num) (le_max_right _ 7)

lemma cooldown_factor_nonneg (ds : ℤ) : 0 ≤ cooldown_factor ds := by
  unfold cooldown_factor
  split_ifs <;> norm_num

lemma day_of_week_factor_nonneg (wd : ℤ) : 0 ≤ day_of_week_factor wd := by
  unfold day_of_week_factor
  split_ifs <;> norm_num [WEEKEND_IMPULSE_BOOST]

lemma budget_cycle_factor_nonneg (dm : ℤ) : 0 ≤ budget_cycle_factor dm := by
  unfold budget_cycle_factor
  split_ifs <;> norm_num

lemma satisfaction_factor_nonneg (cd : Option Customer) :
    0 ≤ satisfaction_factor cd := by
  unfold satisfaction_factor
  cases cd with
  | none => norm_num
  | some c =>
    dsimp only
    have hb : (0 : ℚ) ≤ (if c.satisfaction_score < SATISFACTION_LOW_THRESHOLD then (0.2 : ℚ)
        else if SATISFACTION_HIGH_THRESHOLD < c.satisfaction_score then 1.3
        else 0.5 + c.satisfaction_score) := by
      split_ifs with h1 h2
      · norm_num
      · norm_num
      · rw [not_lt] at h1
        norm_num [SATISFACTION_LOW_THRESHOLD] at h1
        linarith
    by_cases h0 : c.last_negative_experience_days < 14
    · rw [if_pos h0]
      exact mul_nonneg hb (by norm_num)
    · rw [if_neg h0]
      exact hb

lemma purchase_intent_factor_nonneg (cd : Option Customer) (wd : ℤ) :
    0 ≤ purchase_intent_factor cd wd := by
  unfold purchase_intent_factor
  cases cd with
  | none => norm_num
  | some c =>
    dsimp only
    split_ifs with h1 h2 h3
    · norm_num
    · norm_num
    · norm_num
    · rw [not_lt] at h1
      norm_num [IMPULSE_PURCHASE_THRESHOLD] at h1
      linarith

lemma price_sensitivity_factor_nonneg (cd : Option Customer) :
    0 ≤ price_sensitivity_factor cd := by
  unfold price_sensitivity_factor
  cases cd with
  | none => norm_num
  | some c =>
    dsimp only
    split_ifs <;> norm_num [PRICE_SENSITIVE_REDUCTION_FACTOR]

lemma brand_loyalty_factor_nonneg (cd : Option Customer) :
    0 ≤ brand_loyalty_factor cd := by
  unfold brand_loyalty_factor
  cases cd with
  | none => norm_num
  | some c =>
    dsimp only
    split_ifs <;> norm_num [BRAND_LOYALTY_BOOST_FACTOR]

lemma seasonal_factor_nonneg (m : ℤ) : 0 ≤ seasonal_factor m := by
  unfold seasonal_factor
  split_ifs <;> norm_num [SEASONAL_BOOST_FACTOR, SEASONAL_LOW_FACTOR]

lemma product_interest_factor_nonneg (r : ℚ) (ds : ℤ) :
    0 ≤ product_interest_factor r ds := by
  unfold product_interest_factor
  split_ifs
  · norm_num [PRODUCT_DISCOVERY_BOOST]
  · have h := min_le_right ((ds : ℚ) * PRODUCT_INTEREST_DECLINE_RATE) 0.3
    linarith

lemma comprehensive_probability_nonneg (orders : List Order) (hd : ℤ) (d : Date)
    (cd : Option Customer) (r : ℚ) :
    0 ≤ comprehensive_probability orders hd d cd r := by
  unfold comprehensive_probability
  refine mul_nonneg (mul_nonneg (mul_nonneg (mul_nonneg (mul_nonneg (mul_nonneg
    (mul_nonneg (mul_nonneg (mul_nonneg (mul_nonneg ?_ ?_) ?_) ?_) ?_) ?_) ?_) ?_) ?_) ?_) ?_
  · exact base_daily_probability_nonneg _ _
  · exact cooldown_factor_nonneg _
  · exact day_of_week_factor_nonneg _
  · exact budget_cycle_factor_nonneg _
  · exact satisfaction_factor_nonneg _
  · exact purchase_intent_factor_nonneg _ _
  · exact seasonal_factor_nonneg _
  · exact price_sensitivity_factor_nonneg _
  · exact brand_loyalty_factor_nonneg _
  · exact product_interest_factor_nonneg _ _
  · norm_num [ECONOMIC_SENTIMENT_FACTOR]

lemma campaign_multiplier_mono (f1 f2 : ℚ) (h12 : f1 ≤ f2)
    (hside : f2 ≤ 1 ∨ 1 < f1) :
    campaign_multiplier f1 ≤ campaign_multiplier f2 := by
  unfold campaign_multiplier
  rcases hside with h | h
  · rw [if_neg (by rw [not_lt]; norm_num; linarith),
      if_neg (by rw [not_lt]; norm_num; linarith)]
    exact h12
  · rw [if_pos (by norm_num; linarith), if_pos (by norm_num; linarith)]
    nlinarith

lemma final_probability_mono (enable : Bool) (f1 f2 : ℚ) (orders : List Order)
    (hd : ℤ) (d : Date) (cd : Option Customer) (r : ℚ) (h12 : f1 ≤ f2)
    (hside : f2 ≤ 1 ∨ 1 < f1) :
    final_probability enable f1 orders hd d cd r ≤
      final_probability enable f2 orders hd d cd r := by
  unfold final_probability campaign_overlay
  by_cases hw : (enable && in_campaign_window d) = true
  · rw [if_pos hw, if_pos hw, if_pos hw, if_pos hw]
    refine min_le_min ?_ le_rfl
    refine min_le_min ?_ le_rfl
    have hcomp := comprehensive_probability_nonneg orders hd d cd r
    have hm := campaign_multiplier_mono f1 f2 h12 hside
    have hu : (0 : ℚ) ≤ (if dateToDays CAMPAIGN_END - dateToDays d ≤ 7 then (1.4 : ℚ)
        else if dateToDays CAMPAIGN_END - dateToDays d ≤ 30 then 1.2 else 1.0) := by
      split_ifs <;> norm_num
    have hre : (0 : ℚ) ≤ reactivation_boost cd := by
      unfold reactivation_boost
      cases cd with
      | none => norm_num
      | some c =>
        dsimp only
        split_ifs <;> norm_num
    have hp : (0 : ℚ) ≤ (if d.day = 1 ∨ d.day = 15 then (1.3 : ℚ) else 1.0) := by
      split_ifs <;> norm_num
    exact mul_le_mul_of_nonneg_right
      (mul_le_mul_of_nonneg_right
        (mul_le_mul_of_nonneg_right
          (mul_le_mul_of_nonneg_left hm hcomp) hu) hre) hp
  · rw [if_neg hw, if_neg hw, if_neg hw, if_neg hw]

/-- C1 (amended): with all other inputs and all random draws held fixed,
`decide_order_placement` is monotone non-decreasing in
`campaign_impact_factor` as long as the two factors lie on the same side
of 1.0 (both at most 1.0, or both above 1.0): a true decision at the
smaller factor stays true at the larger one. (Across 1.0 the campaign
multiplier drops from `f` to `f * 0.8`, so monotonicity fails there; see
the counterexample.) -/
theorem decide_order_placement_monotone_same_side (enable : Bool) (f1 f2 : ℚ)
    (orders : List Order) (hd : ℤ) (d : Date) (cd : Option Customer)
    (rDiscovery rFinal rGuard rSatGuard : ℚ) (h12 : f1 ≤ f2)
    (hside : f2 ≤ 1 ∨ 1 < f1)
    (h : decide_order_placement enable f1 orders hd d cd
      rDiscovery rFinal rGuard rSatGuard = true) :
    decide_order_placement enable f2 orders hd d cd
      rDiscovery rFinal rGuard rSatGuard = true := by
  unfold decide_order_placement at h ⊢
  by_cases hg1 : days_since_last_purchase orders d < 2 ∧ 0.95 < rGuard
  · rw [if_pos hg1] at h
    exact absurd h (by simp)
  · rw [if_neg hg1] at h ⊢
    by_cases hg2 : (cd.any fun c => c.satisfaction_score < 0.2) = true ∧ 0.1 < rSatGuard
    · rw [if_pos hg2] at h
      exact absurd h (by simp)
    · rw [if_neg hg2] at h ⊢
      rw [decide_eq_true_eq] at h ⊢
      exact le_trans h
        (final_probability_mono enable f1 f2 orders hd d cd rDiscovery h12 hside)

/-- Witness for C1's amended monotonicity at factors 1.3 and 1.5 (both
above 1.0) on a concrete in-window day. -/
theorem decide_order_placement_monotone_same_side_witness :
    ((1.3 : ℚ) ≤ 1.5 ∧ (1 : ℚ) < 1.3) ∧
    decide_order_placement true 1.5 [] 365 ⟨2025, 9, 10⟩ none 0.5 0.0005 0 0 = true :=
  ⟨⟨by norm_num, by norm_num⟩,
    decide_order_placement_monotone_same_side true 1.3 1.5 [] 365 ⟨2025, 9, 10⟩ none
      0.5 0.0005 0 0 (by norm_num) (Or.inr (by norm_num))
      (by with_unfolding_all rfl)⟩

/-- Counterexample to C1 as stated: with every other input and draw held
fixed on an in-window day, raising the campaign impact factor from 1.0
to 1.01 flips the decision from true to false (the campaign multiplier
jumps from 1.0 down to 1.01 * 0.8 = 0.808, lowering the final
probability from 0.0007 below the fixed decision draw 0.0006). -/
theorem decide_order_placement_not_monotone :
    (1 : ℚ) ≤ 1.01 ∧
    decide_order_placement true 1 [] 365 ⟨2025, 9, 10⟩ none 0.5 0.0006 0 0 = true ∧
    decide_order_placement true 1.01 [] 365 ⟨2025, 9, 10⟩ none 0.5 0.0006 0 0 = false :=
  ⟨by norm_num, by with_unfolding_all rfl, by with_unfolding_all rfl⟩


/-! ## Claim C9 -/

lemma _generate_order_lines_go_length (catalog : List CatalogProduct)
    (preferred : List PreferredProduct) (itemDraws : ℕ → ItemDraw) (num_items : ℕ)
    (d : Date) :
    ∀ (fuel : ℕ) (remaining : ℚ) (lines : List OrderLine),
      _generate_order_lines_go catalog preferred itemDraws num_items d fuel remaining =
        Except.ok lines →
      lines.length ≤ fuel ∧ (1 ≤ fuel → 1 ≤ lines.length) := by
  intro fuel
  induction fuel with
  | zero =>
    intro remaining lines h
    simp only [_generate_order_lines_go] at h
    injection h with h2
    subst h2
    exact ⟨le_rfl, fun h1 => absurd h1 (by omega)⟩
  | succ n ih =>
    intro remaining lines h
    simp only [_generate_order_lines_go] at h
    split at h
    · exact absurd h (by simp)
    · split_ifs at h
      · injection h with h2
        subst h2
        refine ⟨?_, fun _ => ?_⟩ <;> simp only [List.length_cons, List.length_nil] <;> omega
      · split at h
        · exact absurd h (by simp)
        · rename_i rest heq
          injection h with h2
          subst h2
          obtain ⟨hl, _⟩ := ih _ _ heq
          refine ⟨?_, fun _ => ?_⟩ <;> simp only [List.length_cons] <;> omega

lemma _generate_order_lines_length (catalog : List CatalogProduct)
    (prefs : ProductPreferences) (target : ℚ) (d : Date) (nj : ℚ)
    (idr : ℕ → ItemDraw) (lines : List OrderLine)
    (h : _generate_order_lines catalog prefs target d nj idr = Except.ok lines) :
    1 ≤ lines.length ∧ lines.length ≤ MAXIMUM_ITEMS_PER_ORDER := by
  unfold _generate_order_lines at h
  obtain ⟨hle, hge⟩ := _generate_order_lines_go_length catalog prefs.preferred_products
    idr _ d _ target lines h
  refine ⟨hge ?_, le_trans hle (min_le_right _ _)⟩
  exact le_min (le_max_left 1 _) (by norm_num [MAXIMUM_ITEMS_PER_ORDER])

/-- C9: every order returned by `generate_customer_order` has
`total_spent` equal to the 2-decimal rounding of the sum over its lines
of unit price times quantity, and between 1 and
`MAXIMUM_ITEMS_PER_ORDER` order lines, for every catalog, customer,
date and random draw. -/
theorem generate_customer_order_spec (catalog : List CatalogProduct) (c : Customer)
    (d : Date) (draws : OrderGenDraws) (o : Order)
    (h : generate_customer_order catalog c d draws = Except.ok o) :
    o.total_spent =
      pyRound2 ((o.order_lines.map (fun l => l.product_price * (l.quantity : ℚ))).sum) ∧
    1 ≤ o.order_lines.length ∧ o.order_lines.length ≤ MAXIMUM_ITEMS_PER_ORDER := by
  unfold generate_customer_order at h
  dsimp only at h
  split at h
  · exact absurd h (by simp)
  · rename_i lines heq
    injection h with h2
    subst h2
    exact ⟨rfl, _generate_order_lines_length _ _ _ _ _ _ _ heq⟩

/-- The concrete order produced by the sample catalog, customer and
draws on 2025-09-06. -/
def sampleGeneratedOrder : Order :=
  { order_id := 1757116801000, total_spent := 30, order_date := ⟨2025, 9, 6⟩,
    order_lines := [⟨"A", 10, 2⟩, ⟨"A", 10, 1⟩] }

/-- Witness for C9: the sample generation run satisfies the invariant
(two lines, total 30 = round2(10*2 + 10*1)). -/
theorem generate_customer_order_spec_witness :
    generate_customer_order sampleCatalog sampleCustomer ⟨2025, 9, 6⟩ sampleOrderDraws =
      Except.ok sampleGeneratedOrder ∧
    sampleGeneratedOrder.total_spent = pyRound2 ((sampleGeneratedOrder.order_lines.map
      (fun l => l.product_price * (l.quantity : ℚ))).sum) ∧
    1 ≤ sampleGeneratedOrder.order_lines.length ∧
    sampleGeneratedOrder.order_lines.length ≤ MAXIMUM_ITEMS_PER_ORDER := by
  have h : generate_customer_order sampleCatalog sampleCustomer ⟨2025, 9, 6⟩
      sampleOrderDraws = Except.ok sampleGeneratedOrder := by
    with_unfolding_all rfl
  exact ⟨h, generate_customer_order_spec sampleCatalog sampleCustomer ⟨2025, 9, 6⟩
    sampleOrderDraws sampleGeneratedOrder h⟩


/-! ## Claims C2 and C6: driver frame lemmas -/

lemma appendOrderAt_map_tickets (cs : List Customer) (i : ℕ) (o : Order) :
    (appendOrderAt cs i o).map (fun c => c.tickets_count) =
      cs.map (fun c => c.tickets_count) := by
  induction cs generalizing i with
  | nil => rfl
  | cons a t ih =>
    cases i with
    | zero => simp [appendOrderAt]
    | succ j => simp [appendOrderAt, ih]

lemma map_tickets_length {l1 l2 : List Customer}
    (h : l1.map (fun c => c.tickets_count) = l2.map (fun c => c.tickets_count)) :
    l1.length = l2.length := by
  have h2 := congrArg List.length h
  simpa using h2

lemma boostWinner_length (ags : List CustomerAgentState) (wid : ℤ) (pz : Prize) :
    (boostWinner ags wid pz).length = ags.length := by
  induction ags with
  | nil => rfl
  | cons a t ih =>
    unfold boostWinner
    split_ifs <;> simp [ih]

lemma step_agents_go_frame (so : ℕ → ℚ) (enable : Bool) (catalog : List CatalogProduct)
    (d : Date) (draws : ℕ → StepDraws) :
    ∀ (ags : List CustomerAgentState) (i : ℕ) (cs : List Customer) (rev : ℚ) (cnt : ℕ)
      (ags2 : List CustomerAgentState) (cs2 : List Customer) (rev2 : ℚ) (cnt2 : ℕ),
      step_agents_go so enable catalog d draws i ags cs rev cnt =
        Except.ok (ags2, cs2, rev2, cnt2) →
      cs2.map (fun c => c.tickets_count) = cs.map (fun c => c.tickets_count) ∧
      ags2.length = ags.length := by
  intro ags
  induction ags with
  | nil =>
    intro i cs rev cnt ags2 cs2 rev2 cnt2 h
    simp only [step_agents_go, Except.ok.injEq, Prod.mk.injEq] at h
    obtain ⟨h1, h2, h3, h4⟩ := h
    subst h1
    subst h2
    exact ⟨rfl, rfl⟩
  | cons a t ih =>
    intro i cs rev cnt ags2 cs2 rev2 cnt2 h
    simp only [step_agents_go] at h
    split at h
    · exact absurd h (by simp)
    · split at h
      · exact absurd h (by simp)
      · rename_i heq2
        simp only [Except.ok.injEq, Prod.mk.injEq] at h
        obtain ⟨h1, h2, h3, h4⟩ := h
        subst h1
        subst h2
        obtain ⟨hc, hl⟩ := ih _ _ _ _ _ _ _ _ heq2
        exact ⟨hc, by simp [hl]⟩
    · split at h
      · exact absurd h (by simp)
      · rename_i heq2
        simp only [Except.ok.injEq, Prod.mk.injEq] at h
        obtain ⟨h1, h2, h3, h4⟩ := h
        subst h1
        subst h2
        obtain ⟨hc, hl⟩ := ih _ _ _ _ _ _ _ _ heq2
        exact ⟨hc.trans (appendOrderAt_map_tickets cs _ _), by simp [hl]⟩

/-- Everything `CustomerModel.new_day` does to the model state apart
from stepping the agents: the customer roster's ticket counts (hence its
length) are untouched, no new customer is added, `new_customers_count`
never changes, the agent roster keeps its size, exactly one row is
recorded into the time series, and the clock advances by exactly one
day. -/
lemma new_day_state_spec (so : ℕ → ℚ) (enable : Bool) (catalog : List CatalogProduct)
    (s : CustomerModelState) (d : DayDraws) (s2 : CustomerModelState)
    (h : new_day so enable catalog s d = Except.ok s2) :
    s2.customers.map (fun c => c.tickets_count) =
      s.customers.map (fun c => c.tickets_count) ∧
    s2.customers.length = s.customers.length ∧
    s2.agents.length = s.agents.length ∧
    s2.new_customers_count = s.new_customers_count ∧
    s2.series = s.series ++
      [DailyRecord.mk s.new_customers_count s2.generated_revenue
        s2.received_orders_count] ∧
    s2.current_date = nextDay s.current_date := by
  unfold new_day at h
  dsimp only at h
  split at h
  · exact absurd h (by simp)
  · rename_i s1 heq1
    have hs1 : s1.customers = s.customers ∧ s1.agents.length = s.agents.length ∧
        s1.new_customers_count = s.new_customers_count ∧ s1.series = s.series ∧
        s1.current_date = s.current_date ∧ s1.generated_revenue = s.generated_revenue ∧
        s1.received_orders_count = s.received_orders_count := by
      split at heq1
      · injection heq1 with h2
        subst h2
        exact ⟨rfl, rfl, rfl, rfl, rfl, rfl, rfl⟩
      · split at heq1
        · exact absurd heq1 (by simp)
        · injection heq1 with h2
          subst h2
          exact ⟨rfl, boostWinner_length _ _ _, rfl, rfl, rfl, rfl, rfl⟩
    obtain ⟨hc1, ha1, hn1, hse1, hd1, hr1, ho1⟩ := hs1
    split at h
    · exact absurd h (by simp)
    · rename_i heq2
      injection h with h2
      subst h2
      obtain ⟨hcm, hal⟩ := step_agents_go_frame so enable catalog s1.current_date
        d.agentDraws _ _ _ _ _ _ _ _ _ heq2
      rw [hc1] at hcm
      refine ⟨hcm, map_tickets_length hcm, ?_, ?_, ?_, ?_⟩
      · rw [ha1] at hal
        exact hal
      · exact hn1
      · rw [hse1, hn1]
      · rw [hd1]

/-- C6: along every successful run of the driver from
`CustomerModel_init`, the per-customer ticket counts stored in
`model.customers` — exactly the weights `new_day` hands to
`get_prize_winner` on every prize day — stay equal to the ticket counts
of the initial customer records, no matter how many orders agents place
(agents increment only their own agent-level `tickets_count` copy, since
the int rebinding never writes back to the `Customer` record). Holds for
every square-root oracle, campaign flag, catalog and draw sequence. -/
theorem run_preserves_prize_draw_weights (so : ℕ → ℚ) (enable : Bool)
    (catalog : List CatalogProduct) (customers : List Customer) (ds : List DayDraws)
    (s2 : CustomerModelState)
    (h : run_days so enable catalog (CustomerModel_init customers) ds = Except.ok s2) :
    s2.customers.map (fun c => c.tickets_count) =
      customers.map (fun c => c.tickets_count) := by
  suffices hgen : ∀ (ds : List DayDraws) (s s2 : CustomerModelState),
      run_days so enable catalog s ds = Except.ok s2 →
      s2.customers.map (fun c => c.tickets_count) =
        s.customers.map (fun c => c.tickets_count) by
    exact hgen ds (CustomerModel_init customers) s2 h
  intro ds
  induction ds with
  | nil =>
    intro s s2 h
    simp only [run_days] at h
    injection h with h2
    subst h2
    rfl
  | cons d t ih =>
    intro s s2 h
    simp only [run_days] at h
    split at h
    · exact absurd h (by simp)
    · rename_i s1 heq
      exact (ih s1 s2 h).trans (new_day_state_spec so enable catalog s d s1 heq).1

/-- The state after one concrete driver day. -/
def sampleDayOneState : CustomerModelState :=
  (new_day natSqrtOracle true sampleCatalog (CustomerModel_init [sampleCustomer])
    sampleDayDraws).toOption.getD (CustomerModel_init [])

/-- Witness for C6: a concrete one-day run succeeds and keeps the
initial customer's single prize ticket as their draw weight. -/
theorem run_preserves_prize_draw_weights_witness :
    run_days natSqrtOracle true sampleCatalog (CustomerModel_init [sampleCustomer])
      [sampleDayDraws] = Except.ok sampleDayOneState ∧
    sampleDayOneState.customers.map (fun c => c.tickets_count) =
      [sampleCustomer].map (fun c => c.tickets_count) := by
  have h : run_days natSqrtOracle true sampleCatalog (CustomerModel_init [sampleCustomer])
      [sampleDayDraws] = Except.ok sampleDayOneState := by
    with_unfolding_all rfl
  exact ⟨h, run_preserves_prize_draw_weights natSqrtOracle true sampleCatalog
    [sampleCustomer] [sampleDayDraws] sampleDayOneState h⟩

/-- C2 (amended): every successful daily step of the driver performs the
prize award, steps the agents, records exactly one aggregate row (new
customer count, cumulative revenue, order count) and advances the date
by exactly one day — but never invokes the acquisition engine: the
roster length and `new_customers_count` are unchanged on every step, so
step (c) of the claimed sequence does not exist in `new_day`. -/
theorem new_day_runs_no_acquisition (so : ℕ → ℚ) (enable : Bool)
    (catalog : List CatalogProduct) (s : CustomerModelState) (d : DayDraws)
    (s2 : CustomerModelState) (h : new_day so enable catalog s d = Except.ok s2) :
    s2.customers.length = s.customers.length ∧
    s2.new_customers_count = s.new_customers_count ∧
    s2.agents.length = s.agents.length ∧
    s2.series = s.series ++
      [DailyRecord.mk s.new_customers_count s2.generated_revenue
        s2.received_orders_count] ∧
    s2.current_date = nextDay s.current_date := by
  obtain ⟨h1, h2, h3, h4, h5, h6⟩ := new_day_state_spec so enable catalog s d s2 h
  exact ⟨h2, h4, h3, h5, h6⟩

/-- Witness for C2's amended step description on a concrete day. -/
theorem new_day_runs_no_acquisition_witness :
    new_day natSqrtOracle true sampleCatalog (CustomerModel_init [sampleCustomer])
      sampleDayDraws = Except.ok sampleDayOneState ∧
    sampleDayOneState.customers.length = 1 ∧
    sampleDayOneState.new_customers_count = 0 ∧
    sampleDayOneState.current_date = nextDay CAMPAIGN_START := by
  have h : new_day natSqrtOracle true sampleCatalog (CustomerModel_init [sampleCustomer])
      sampleDayDraws = Except.ok sampleDayOneState := by
    with_unfolding_all rfl
  have h2 := new_day_runs_no_acquisition natSqrtOracle true sampleCatalog
    (CustomerModel_init [sampleCustomer]) sampleDayDraws sampleDayOneState h
  exact ⟨h, h2.1, h2.2.1, h2.2.2.2.2⟩

/-- Counterexample to C2 as stated: on the first campaign day with
concrete draws for which the acquisition engine (as implemented in
`decide_new_customer_acquisition`) would return one new customer, the
driver's `new_day` leaves the roster at its initial single customer and
`new_customers_count` at zero — the daily step never runs the
acquisition engine and adds no customers to the roster. -/
theorem new_day_ignores_acquisition_engine :
    ((new_day natSqrtOracle true sampleCatalog (CustomerModel_init [sampleCustomer])
      sampleDayDraws).map (fun s => (s.customers.length, s.new_customers_count)) =
        Except.ok (1, 0)) ∧
    ((decide_new_customer_acquisition true sampleCatalog CAMPAIGN_START 1 none
      sampleAcqDraws).map List.length = Except.ok 1) :=
  ⟨by with_unfolding_all rfl, by with_unfolding_all rfl⟩

end Meama